import Mathlib

/-!
# NV3041 LCD panel driver (`esp_lcd_nv3041.c`): embedding and verified properties

The driver is a register-sequencing shim: every operation formats a few bytes
and hands them to the bus primitives of the platform.  The embedding keeps the
driver's private state (`nv3041_panel_t`) as a structure and makes the
platform explicit:

* every call into the platform (bus transmission, GPIO, delay) is appended to
  a log, `World.trace`, in program order;
* the result of the `n`-th bus transmission is read from an oracle
  `Env.tx_result n`; quantifying over the oracle quantifies over every
  behaviour of the transport;
* C `int` is 32 bits wide: the result of every `int` operation is reduced to
  the two's complement range by `wrap_int`, which is what the target does
  where the C standard leaves signed overflow undefined; `size_t` is 32 bits
  wide and `uint8_t` stores are reduced modulo 256;
* arguments and fields of type `int` are integers; the driver is called with
  values of the `int` range, and what is proved for every integer holds for
  these;
* reading `data[0]` of an init-table entry whose data buffer is empty has no
  defined result in C; the embedding reports it as `Outcome.undefined`;
* a failed `assert` is reported as `Outcome.assert_fail`;
* log output (`ESP_LOGx`) is not part of the model.
-/

namespace NV3041

/-! ## Constants of the platform headers -/

abbrev esp_err_t := Int

def ESP_OK : esp_err_t := 0
def ESP_ERR_NO_MEM : esp_err_t := 0x101
def ESP_ERR_INVALID_ARG : esp_err_t := 0x102
def ESP_ERR_NOT_SUPPORTED : esp_err_t := 0x106

/- Opcodes and MADCTL bits of `esp_lcd_panel_commands.h` (ESP-IDF). -/
def LCD_CMD_SWRESET : Int := 0x01
def LCD_CMD_SLPOUT : Int := 0x11
def LCD_CMD_INVOFF : Int := 0x20
def LCD_CMD_INVON : Int := 0x21
def LCD_CMD_DISPOFF : Int := 0x28
def LCD_CMD_DISPON : Int := 0x29
def LCD_CMD_CASET : Int := 0x2A
def LCD_CMD_RASET : Int := 0x2B
def LCD_CMD_RAMWR : Int := 0x2C
def LCD_CMD_MADCTL : Int := 0x36
def LCD_CMD_COLMOD : Int := 0x3A

def LCD_CMD_BGR_BIT : Nat := 0x08
def LCD_CMD_MV_BIT : Nat := 0x20
def LCD_CMD_MX_BIT : Nat := 0x40
def LCD_CMD_MY_BIT : Nat := 0x80

/-! ## Data model -/

/-- One entry of an init table: `{cmd, data, data_bytes, delay_ms}`.  `data`
is the content of the buffer the pointer refers to (empty for `NULL`);
`data_bytes` is the number of bytes handed to the bus. -/
structure nv3041_lcd_init_cmd_t where
  cmd : Int
  data : List Nat
  data_bytes : Nat
  delay_ms : Nat
  deriving DecidableEq

/-- The vendor configuration.  The pair `(init_cmds, init_cmds_size)` is a
pointer with an element count: `none` is `NULL`, `some l` is an array whose
`init_cmds_size = l.length` entries are read. -/
structure nv3041_vendor_config_t where
  init_cmds : Option (List nv3041_lcd_init_cmd_t)
  deriving DecidableEq

/-- The colour-order selector of the device configuration (`color_space`,
`rgb_endian` or `rgb_ele_order`, by ESP-IDF version): the two enumerators the
driver accepts, and any other value. -/
inductive lcd_rgb_element_order_t where
  | RGB
  | BGR
  | other
  deriving DecidableEq

/-- The fields of `esp_lcd_panel_dev_config_t` the driver reads. -/
structure esp_lcd_panel_dev_config_t where
  reset_gpio_num : Int
  rgb_ele_order : lcd_rgb_element_order_t
  bits_per_pixel : Nat
  reset_active_high : Bool
  vendor_config : Option nv3041_vendor_config_t
  deriving DecidableEq

/-- The driver's private state, `nv3041_panel_t` (without the function table
`base` and the transport handle `io`, which is the `Env` below). -/
structure nv3041_panel_t where
  reset_gpio_num : Int
  reset_level : Bool
  x_gap : Int
  y_gap : Int
  fb_bits_per_pixel : Nat
  madctl_val : Nat
  colmod_val : Nat
  init_cmds : Option (List nv3041_lcd_init_cmd_t)
  deriving DecidableEq

/-- A call into the platform, with its arguments. -/
inductive Event where
  | tx_param (lcd_cmd : Int) (param : List Nat) (param_size : Nat)
  | tx_color (lcd_cmd : Int) (color : List Nat) (color_size : Nat)
  | gpio_config (pin_bit_mask : Nat)
  | gpio_set_level (gpio_num : Int) (level : Bool)
  | gpio_reset_pin (gpio_num : Int)
  | vTaskDelay (ms : Nat)
  deriving DecidableEq

/-- The platform as the driver sees it: the log of calls made so far and the
number of bus transmissions among them. -/
structure World where
  trace : List Event
  sent : Nat
  deriving DecidableEq

/-- What the platform answers: the result of the `n`-th bus transmission,
the result of `gpio_config`, and whether `calloc` returns memory. -/
structure Env where
  tx_result : Nat → esp_err_t
  gpio_config_result : esp_err_t
  calloc_ok : Bool

/-- How a driver function ends. -/
inductive Outcome where
  | ret (code : esp_err_t)
  | assert_fail
  | undefined
  deriving DecidableEq

/-! ## Platform primitives -/

def World.log (w : World) (e : Event) : World :=
  { w with trace := w.trace ++ [e] }

def esp_lcd_panel_io_tx_param (env : Env) (w : World) (lcd_cmd : Int)
    (param : List Nat) (param_size : Nat) : esp_err_t × World :=
  (env.tx_result w.sent,
   { trace := w.trace ++ [Event.tx_param lcd_cmd param param_size], sent := w.sent + 1 })

def esp_lcd_panel_io_tx_color (env : Env) (w : World) (lcd_cmd : Int)
    (color : List Nat) (color_size : Nat) : esp_err_t × World :=
  (env.tx_result w.sent,
   { trace := w.trace ++ [Event.tx_color lcd_cmd color color_size], sent := w.sent + 1 })

def vTaskDelay (w : World) (ms : Nat) : World :=
  w.log (Event.vTaskDelay ms)

def gpio_set_level (w : World) (gpio_num : Int) (level : Bool) : World :=
  w.log (Event.gpio_set_level gpio_num level)

def gpio_reset_pin (w : World) (gpio_num : Int) : World :=
  w.log (Event.gpio_reset_pin gpio_num)

def gpio_config (env : Env) (w : World) (pin_bit_mask : Nat) : esp_err_t × World :=
  (env.gpio_config_result, w.log (Event.gpio_config pin_bit_mask))

/-! ## The driver -/

/-- The table `vendor_specific_init_default`, entry by entry. -/
def vendor_specific_init_default : List nv3041_lcd_init_cmd_t := [
  ⟨0xff, [0xa5], 1, 0⟩,
  ⟨0x36, [0xc0], 1, 0⟩,
  ⟨0x3a, [0x01], 1, 0⟩,
  ⟨0x41, [0x03], 1, 0⟩,
  ⟨0x44, [0x15], 1, 0⟩,
  ⟨0x45, [0x15], 1, 0⟩,
  ⟨0x7d, [0x03], 1, 0⟩,
  ⟨0xc1, [0xbb], 1, 0⟩,
  ⟨0xc2, [0x05], 1, 0⟩,
  ⟨0xc3, [0x10], 1, 0⟩,
  ⟨0xc6, [0x3e], 1, 0⟩,
  ⟨0xc7, [0x25], 1, 0⟩,
  ⟨0xc8, [0x11], 1, 0⟩,
  ⟨0x7a, [0x5f], 1, 0⟩,
  ⟨0x6f, [0x44], 1, 0⟩,
  ⟨0x78, [0x70], 1, 0⟩,
  ⟨0xc9, [0x00], 1, 0⟩,
  ⟨0x67, [0x21], 1, 0⟩,
  ⟨0x51, [0x0a], 1, 0⟩,
  ⟨0x52, [0x76], 1, 0⟩,
  ⟨0x53, [0x0a], 1, 0⟩,
  ⟨0x54, [0x76], 1, 0⟩,
  ⟨0x46, [0x0a], 1, 0⟩,
  ⟨0x47, [0x2a], 1, 0⟩,
  ⟨0x48, [0x0a], 1, 0⟩,
  ⟨0x49, [0x1a], 1, 0⟩,
  ⟨0x56, [0x43], 1, 0⟩,
  ⟨0x57, [0x42], 1, 0⟩,
  ⟨0x58, [0x3c], 1, 0⟩,
  ⟨0x59, [0x64], 1, 0⟩,
  ⟨0x5a, [0x41], 1, 0⟩,
  ⟨0x5b, [0x3c], 1, 0⟩,
  ⟨0x5c, [0x02], 1, 0⟩,
  ⟨0x5d, [0x3c], 1, 0⟩,
  ⟨0x5e, [0x1f], 1, 0⟩,
  ⟨0x60, [0x80], 1, 0⟩,
  ⟨0x61, [0x3f], 1, 0⟩,
  ⟨0x62, [0x21], 1, 0⟩,
  ⟨0x63, [0x07], 1, 0⟩,
  ⟨0x64, [0xe0], 1, 0⟩,
  ⟨0x65, [0x02], 1, 0⟩,
  ⟨0xca, [0x20], 1, 0⟩,
  ⟨0xcb, [0x52], 1, 0⟩,
  ⟨0xcc, [0x10], 1, 0⟩,
  ⟨0xcd, [0x42], 1, 0⟩,
  ⟨0xd0, [0x20], 1, 0⟩,
  ⟨0xd1, [0x52], 1, 0⟩,
  ⟨0xd2, [0x10], 1, 0⟩,
  ⟨0xd3, [0x42], 1, 0⟩,
  ⟨0xd4, [0x0a], 1, 0⟩,
  ⟨0xd5, [0x32], 1, 0⟩,
  ⟨0x80, [0x00, 0x07, 0x02, 0x37, 0x35, 0x3f, 0x11, 0x27, 0x0b, 0x14, 0x1a, 0x0a, 0x14, 0x17, 0x16, 0x1b, 0x04, 0x0a, 0x16], 19, 0⟩,
  ⟨0xa0, [0x00, 0x06, 0x01, 0x37, 0x35, 0x3f, 0x10, 0x27, 0x0b, 0x14, 0x1a, 0x0a, 0x08, 0x07, 0x06, 0x07, 0x04, 0x0a, 0x15], 19, 0⟩,
  ⟨0xff, [0x00], 1, 0⟩,
  ⟨0x11, [0x00], 1, 120⟩,
  ⟨0x29, [0x00], 1, 100⟩
]

/-- What `calloc(1, sizeof(nv3041_panel_t))` returns: every field zero. -/
def calloc_panel : nv3041_panel_t :=
  { reset_gpio_num := 0, reset_level := false, x_gap := 0, y_gap := 0,
    fb_bits_per_pixel := 0, madctl_val := 0, colmod_val := 0, init_cmds := none }

/-- The label `err:` of `esp_lcd_new_panel_nv3041`, reached with the panel
allocated: the reset line is released if one is configured, the panel is
freed, and `ret` is returned without writing `*ret_panel`. -/
def new_panel_err (cfg : esp_lcd_panel_dev_config_t) (ret : esp_err_t) (w : World) :
    esp_err_t × Option nv3041_panel_t × World :=
  if cfg.reset_gpio_num ≥ 0 then (ret, none, gpio_reset_pin w cfg.reset_gpio_num)
  else (ret, none, w)

/-- The first `switch` of the constructor, on the colour order; `none` is the
`default:` branch. -/
def new_panel_color_order (order : lcd_rgb_element_order_t) (nv3041 : nv3041_panel_t) :
    Option nv3041_panel_t :=
  match order with
  | lcd_rgb_element_order_t.RGB => some { nv3041 with madctl_val := 0 }
  | lcd_rgb_element_order_t.BGR =>
    some { nv3041 with madctl_val := (nv3041.madctl_val ||| LCD_CMD_BGR_BIT) % 256 }
  | lcd_rgb_element_order_t.other => none

/-- The second `switch` of the constructor, on `bits_per_pixel`; `none` is the
`default:` branch. -/
def new_panel_bits_per_pixel (bits_per_pixel : Nat) (nv3041 : nv3041_panel_t) :
    Option nv3041_panel_t :=
  if bits_per_pixel = 12 then some { nv3041 with colmod_val := 0x01, fb_bits_per_pixel := 16 }
  else if bits_per_pixel = 16 then some { nv3041 with colmod_val := 0x01, fb_bits_per_pixel := 16 }
  else if bits_per_pixel = 18 then some { nv3041 with colmod_val := 0x00, fb_bits_per_pixel := 24 }
  else none

/-- The constructor `esp_lcd_new_panel_nv3041`.  `io` and `ret_panel` say
whether the respective pointer is non-null; `panel_dev_config` is `none` for
`NULL`.  The second component of the result is what was written to
`*ret_panel`, if anything. -/
def esp_lcd_new_panel_nv3041 (env : Env) (w : World) (io : Bool)
    (panel_dev_config : Option esp_lcd_panel_dev_config_t) (ret_panel : Bool) :
    esp_err_t × Option nv3041_panel_t × World :=
  match panel_dev_config with
  | none => (ESP_ERR_INVALID_ARG, none, w)
  | some cfg =>
    if ¬ (io = true ∧ ret_panel = true) then (ESP_ERR_INVALID_ARG, none, w)
    else if env.calloc_ok = false then (ESP_ERR_NO_MEM, none, w)
    else
      let g := if cfg.reset_gpio_num ≥ 0
        then gpio_config env w ((1 <<< cfg.reset_gpio_num.toNat) % 2 ^ 64)
        else (ESP_OK, w)
      if g.1 ≠ ESP_OK then new_panel_err cfg g.1 g.2
      else
        match new_panel_color_order cfg.rgb_ele_order calloc_panel with
        | none => new_panel_err cfg ESP_ERR_NOT_SUPPORTED g.2
        | some nv3041 =>
          match new_panel_bits_per_pixel cfg.bits_per_pixel nv3041 with
          | none => new_panel_err cfg ESP_ERR_NOT_SUPPORTED g.2
          | some nv3041 =>
            let nv3041 := { nv3041 with
              reset_gpio_num := cfg.reset_gpio_num,
              reset_level := cfg.reset_active_high }
            let nv3041 := match cfg.vendor_config with
              | some vendor_config => { nv3041 with init_cmds := vendor_config.init_cmds }
              | none => nv3041
            (ESP_OK, some nv3041, g.2)

/-- The destructor `panel_nv3041_del`. -/
def panel_nv3041_del (nv3041 : nv3041_panel_t) (w : World) : Outcome × World :=
  if nv3041.reset_gpio_num ≥ 0 then (Outcome.ret ESP_OK, gpio_reset_pin w nv3041.reset_gpio_num)
  else (Outcome.ret ESP_OK, w)

/-- The operation `panel_nv3041_reset`. -/
def panel_nv3041_reset (env : Env) (nv3041 : nv3041_panel_t) (w : World) :
    Outcome × nv3041_panel_t × World :=
  if nv3041.reset_gpio_num ≥ 0 then
    let w := gpio_set_level w nv3041.reset_gpio_num nv3041.reset_level
    let w := vTaskDelay w 120
    let w := gpio_set_level w nv3041.reset_gpio_num (!nv3041.reset_level)
    let w := vTaskDelay w 120
    (Outcome.ret ESP_OK, nv3041, w)
  else
    let r := esp_lcd_panel_io_tx_param env w LCD_CMD_SWRESET [] 0
    if r.1 ≠ ESP_OK then (Outcome.ret r.1, nv3041, r.2)
    else (Outcome.ret ESP_OK, nv3041, vTaskDelay r.2 120)

/-- The `switch` in the loop of `panel_nv3041_init`: an entry for MADCTL or
COLMOD stores `data[0]` in the shadow byte.  `none` when `data[0]` is read
from an empty buffer. -/
def init_shadow_update (c : nv3041_lcd_init_cmd_t) (nv3041 : nv3041_panel_t) :
    Option nv3041_panel_t :=
  if c.cmd = LCD_CMD_MADCTL then
    c.data.head?.map fun b => { nv3041 with madctl_val := b }
  else if c.cmd = LCD_CMD_COLMOD then
    c.data.head?.map fun b => { nv3041 with colmod_val := b }
  else some nv3041

/-- The `for` loop of `panel_nv3041_init` over the remaining table entries. -/
def init_cmds_loop (env : Env) :
    List nv3041_lcd_init_cmd_t → nv3041_panel_t → World → Outcome × nv3041_panel_t × World
  | [], nv3041, w => (Outcome.ret ESP_OK, nv3041, w)
  | c :: rest, nv3041, w =>
    match init_shadow_update c nv3041 with
    | none => (Outcome.undefined, nv3041, w)
    | some nv3041 =>
      let r := esp_lcd_panel_io_tx_param env w c.cmd c.data c.data_bytes
      if r.1 ≠ ESP_OK then (Outcome.ret r.1, nv3041, r.2)
      else init_cmds_loop env rest nv3041 (vTaskDelay r.2 c.delay_ms)

/-- The table `panel_nv3041_init` walks: the caller's if `init_cmds` is
non-null, the built-in one otherwise. -/
def active_init_cmds (nv3041 : nv3041_panel_t) : List nv3041_lcd_init_cmd_t :=
  match nv3041.init_cmds with
  | some init_cmds => init_cmds
  | none => vendor_specific_init_default

/-- The operation `panel_nv3041_init`. -/
def panel_nv3041_init (env : Env) (nv3041 : nv3041_panel_t) (w : World) :
    Outcome × nv3041_panel_t × World :=
  let r1 := esp_lcd_panel_io_tx_param env w LCD_CMD_SLPOUT [] 0
  if r1.1 ≠ ESP_OK then (Outcome.ret r1.1, nv3041, r1.2)
  else
    let w := vTaskDelay r1.2 100
    let r2 := esp_lcd_panel_io_tx_param env w LCD_CMD_MADCTL [nv3041.madctl_val] 1
    if r2.1 ≠ ESP_OK then (Outcome.ret r2.1, nv3041, r2.2)
    else
      let r3 := esp_lcd_panel_io_tx_param env r2.2 LCD_CMD_COLMOD [nv3041.colmod_val] 1
      if r3.1 ≠ ESP_OK then (Outcome.ret r3.1, nv3041, r3.2)
      else init_cmds_loop env (active_init_cmds nv3041) nv3041 r3.2

/-- Conversion of an `int` to `uint8_t`. -/
def to_uint8 (v : Int) : Nat := (v % 256).toNat

/-- The value an `int` operation yields for the mathematical result `v`:
`v` reduced modulo `2 ^ 32` into the range from `-2 ^ 31` to `2 ^ 31 - 1`. -/
def wrap_int (v : Int) : Int := (v + 2147483648) % 4294967296 - 2147483648

/-- Conversion of an `int` to the 32-bit `size_t`. -/
def to_size_t (v : Int) : Nat := (v % 4294967296).toNat

/-- The operation `panel_nv3041_draw_bitmap`. -/
def panel_nv3041_draw_bitmap (env : Env) (nv3041 : nv3041_panel_t) (w : World)
    (x_start y_start x_end y_end : Int) (color_data : List Nat) :
    Outcome × nv3041_panel_t × World :=
  if ¬ (x_start < x_end ∧ y_start < y_end) then (Outcome.assert_fail, nv3041, w)
  else
    let x_start := wrap_int (x_start + nv3041.x_gap)
    let x_end := wrap_int (x_end + nv3041.x_gap)
    let y_start := wrap_int (y_start + nv3041.y_gap)
    let y_end := wrap_int (y_end + nv3041.y_gap)
    let r1 := esp_lcd_panel_io_tx_param env w LCD_CMD_CASET
      [to_uint8 (Int.land (x_start >>> (8 : Nat)) 0xFF),
       to_uint8 (Int.land x_start 0xFF),
       to_uint8 (Int.land (wrap_int (x_end - 1) >>> (8 : Nat)) 0xFF),
       to_uint8 (Int.land (wrap_int (x_end - 1)) 0xFF)] 4
    if r1.1 ≠ ESP_OK then (Outcome.ret r1.1, nv3041, r1.2)
    else
      let r2 := esp_lcd_panel_io_tx_param env r1.2 LCD_CMD_RASET
        [to_uint8 (Int.land (y_start >>> (8 : Nat)) 0xFF),
         to_uint8 (Int.land y_start 0xFF),
         to_uint8 (Int.land (wrap_int (y_end - 1) >>> (8 : Nat)) 0xFF),
         to_uint8 (Int.land (wrap_int (y_end - 1)) 0xFF)] 4
      if r2.1 ≠ ESP_OK then (Outcome.ret r2.1, nv3041, r2.2)
      else
        let pixels := wrap_int (wrap_int (x_end - x_start) * wrap_int (y_end - y_start))
        let bits := wrap_int (pixels * nv3041.fb_bits_per_pixel)
        let len := to_size_t (Int.tdiv bits 8)
        let r3 := esp_lcd_panel_io_tx_color env r2.2 LCD_CMD_RAMWR color_data len
        if r3.1 ≠ ESP_OK then (Outcome.ret r3.1, nv3041, r3.2)
        else (Outcome.ret ESP_OK, nv3041, r3.2)

/-- The operation `panel_nv3041_invert_color`. -/
def panel_nv3041_invert_color (env : Env) (nv3041 : nv3041_panel_t) (w : World)
    (invert_color_data : Bool) : Outcome × nv3041_panel_t × World :=
  let command := if invert_color_data then LCD_CMD_INVON else LCD_CMD_INVOFF
  let r := esp_lcd_panel_io_tx_param env w command [] 0
  if r.1 ≠ ESP_OK then (Outcome.ret r.1, nv3041, r.2)
  else (Outcome.ret ESP_OK, nv3041, r.2)

/-- The statement `madctl_val |= bit` or `madctl_val &= ~bit` on the
`uint8_t` shadow: within eight bits the complement of `bit` is
`0xFF ^ bit`. -/
def madctl_assign (madctl_val bit : Nat) (set : Bool) : Nat :=
  if set then (madctl_val ||| bit) % 256 else madctl_val &&& (0xFF ^^^ bit)

/-- The operation `panel_nv3041_mirror`. -/
def panel_nv3041_mirror (env : Env) (nv3041 : nv3041_panel_t) (w : World)
    (mirror_x mirror_y : Bool) : Outcome × nv3041_panel_t × World :=
  let nv3041 := { nv3041 with
    madctl_val := madctl_assign nv3041.madctl_val LCD_CMD_MX_BIT mirror_x }
  let nv3041 := { nv3041 with
    madctl_val := madctl_assign nv3041.madctl_val LCD_CMD_MY_BIT mirror_y }
  let r := esp_lcd_panel_io_tx_param env w LCD_CMD_MADCTL [nv3041.madctl_val] 1
  if r.1 ≠ ESP_OK then (Outcome.ret r.1, nv3041, r.2)
  else (Outcome.ret ESP_OK, nv3041, r.2)

/-- The operation `panel_nv3041_swap_xy`. -/
def panel_nv3041_swap_xy (env : Env) (nv3041 : nv3041_panel_t) (w : World)
    (swap_axes : Bool) : Outcome × nv3041_panel_t × World :=
  let nv3041 := { nv3041 with
    madctl_val := madctl_assign nv3041.madctl_val LCD_CMD_MV_BIT swap_axes }
  let r := esp_lcd_panel_io_tx_param env w LCD_CMD_MADCTL [nv3041.madctl_val] 1
  if r.1 ≠ ESP_OK then (Outcome.ret r.1, nv3041, r.2)
  else (Outcome.ret ESP_OK, nv3041, r.2)

/-- The operation `panel_nv3041_set_gap`. -/
def panel_nv3041_set_gap (nv3041 : nv3041_panel_t) (w : World) (x_gap y_gap : Int) :
    Outcome × nv3041_panel_t × World :=
  (Outcome.ret ESP_OK, { nv3041 with x_gap := x_gap, y_gap := y_gap }, w)

/-- The operation `panel_nv3041_disp_on_off`; `idf_before_5` selects the
branch compiled for ESP-IDF releases older than 5.0, which negates the
argument. -/
def panel_nv3041_disp_on_off (env : Env) (nv3041 : nv3041_panel_t) (w : World)
    (idf_before_5 : Bool) (on_off : Bool) : Outcome × nv3041_panel_t × World :=
  let on_off := if idf_before_5 then !on_off else on_off
  let command := if on_off then LCD_CMD_DISPON else LCD_CMD_DISPOFF
  let r := esp_lcd_panel_io_tx_param env w command [] 0
  if r.1 ≠ ESP_OK then (Outcome.ret r.1, nv3041, r.2)
  else (Outcome.ret ESP_OK, nv3041, r.2)

/-! ## Vocabulary of the properties -/

/-- The byte `hi(v) = (v >> 8) & 0xFF`. -/
def hi (v : Int) : Nat := (Int.land (v >>> (8 : Nat)) 0xFF).toNat

/-- The byte `lo(v) = v & 0xFF`. -/
def lo (v : Int) : Nat := (Int.land v 0xFF).toNat

/-- A platform on which every call succeeds. -/
def env_ok : Env := { tx_result := fun _ => ESP_OK, gpio_config_result := ESP_OK, calloc_ok := true }

/-- The platform before the first call. -/
def world0 : World := { trace := [], sent := 0 }

/-- The panel the constructor hands out for a supported configuration. -/
def new_panel_result (cfg : esp_lcd_panel_dev_config_t) : nv3041_panel_t :=
  { reset_gpio_num := cfg.reset_gpio_num,
    reset_level := cfg.reset_active_high,
    x_gap := 0,
    y_gap := 0,
    fb_bits_per_pixel := if cfg.bits_per_pixel = 18 then 24 else 16,
    madctl_val := if cfg.rgb_ele_order = lcd_rgb_element_order_t.BGR then LCD_CMD_BGR_BIT else 0,
    colmod_val := if cfg.bits_per_pixel = 18 then 0x00 else 0x01,
    init_cmds := cfg.vendor_config.bind fun vendor_config => vendor_config.init_cmds }

/-- The platform calls of the constructor when it claims the reset line. -/
def claim_events (cfg : esp_lcd_panel_dev_config_t) : List Event :=
  if 0 ≤ cfg.reset_gpio_num then
    [Event.gpio_config ((1 <<< cfg.reset_gpio_num.toNat) % 2 ^ 64)]
  else []

/-- The platform calls of the constructor when it releases the reset line. -/
def release_events (cfg : esp_lcd_panel_dev_config_t) : List Event :=
  if 0 ≤ cfg.reset_gpio_num then [Event.gpio_reset_pin cfg.reset_gpio_num] else []

/-- A caller that sets the orientation: `panel_nv3041_mirror`, then
`panel_nv3041_swap_xy` on the state and platform the first call left. -/
def mirror_then_swap (env : Env) (p : nv3041_panel_t) (w : World) (mx my s : Bool) :
    Outcome × nv3041_panel_t × World :=
  let r := panel_nv3041_mirror env p w mx my
  panel_nv3041_swap_xy env r.2.1 r.2.2 s

/-- The same caller with the two calls in the other order. -/
def swap_then_mirror (env : Env) (p : nv3041_panel_t) (w : World) (mx my s : Bool) :
    Outcome × nv3041_panel_t × World :=
  let r := panel_nv3041_swap_xy env p w s
  panel_nv3041_mirror env r.2.1 r.2.2 mx my

/-- The byte `m` carries `mx`, `my`, `s` in the mirror-X (6), mirror-Y (7) and
axis-swap (5) bits and agrees with `m0` in the other five bits. -/
def orientation_of (m m0 : Nat) (mx my s : Bool) : Prop :=
  m < 256 ∧ m.testBit 6 = mx ∧ m.testBit 7 = my ∧ m.testBit 5 = s ∧
    ∀ i, i < 8 → i ≠ 5 → i ≠ 6 → i ≠ 7 → m.testBit i = m0.testBit i

/-- The shadow byte `panel_nv3041_mirror` computes from the byte `m`. -/
def mirror_byte (m : Nat) (mx my : Bool) : Nat :=
  madctl_assign (madctl_assign m LCD_CMD_MX_BIT mx) LCD_CMD_MY_BIT my

/-- The shadow byte `panel_nv3041_swap_xy` computes from the byte `m`. -/
def swap_byte (m : Nat) (s : Bool) : Nat :=
  madctl_assign m LCD_CMD_MV_BIT s

/-- One step of the sequence `panel_nv3041_init` works through: a bus
transmission and the delay that follows it once it has succeeded. -/
structure InitStep where
  tx : Event
  delay : Option Nat
  deriving DecidableEq

/-- The platform calls of a step that succeeds. -/
def InitStep.events (s : InitStep) : List Event :=
  match s.delay with
  | some ms => [s.tx, Event.vTaskDelay ms]
  | none => [s.tx]

/-- The platform calls of a run of steps that all succeed. -/
def steps_events : List InitStep → List Event
  | [] => []
  | s :: rest => s.events ++ steps_events rest

/-- The steps of an init table: each entry with its own opcode, data and
byte count, followed by its `delay_ms`. -/
def table_steps (tbl : List nv3041_lcd_init_cmd_t) : List InitStep :=
  tbl.map fun c => { tx := Event.tx_param c.cmd c.data c.data_bytes, delay := some c.delay_ms }

/-- The table an initialisation of the panel state `p` is to walk: the
caller-supplied table if `init_cmds` is non-null, the built-in table
otherwise. -/
def table_in_use (p : nv3041_panel_t) (tbl : List nv3041_lcd_init_cmd_t) : Prop :=
  p.init_cmds = some tbl ∨ (p.init_cmds = none ∧ tbl = vendor_specific_init_default)

/-- The fixed sequence of an initialisation that starts in the panel state `p`
and walks the table `tbl`: sleep-out and 100 ms, MADCTL and COLMOD with the
shadow bytes held on entry, then the entries of `tbl`. -/
def init_steps (p : nv3041_panel_t) (tbl : List nv3041_lcd_init_cmd_t) : List InitStep :=
  [{ tx := Event.tx_param LCD_CMD_SLPOUT [] 0, delay := some 100 },
   { tx := Event.tx_param LCD_CMD_MADCTL [p.madctl_val] 1, delay := none },
   { tx := Event.tx_param LCD_CMD_COLMOD [p.colmod_val] 1, delay := none }] ++
  table_steps tbl

/-- Every table entry for MADCTL or COLMOD has a first data byte to read. -/
def table_ok (tbl : List nv3041_lcd_init_cmd_t) : Prop :=
  ∀ c ∈ tbl, c.cmd = LCD_CMD_MADCTL ∨ c.cmd = LCD_CMD_COLMOD → c.data ≠ []

/-- The last entry of a table whose opcode is `cmd`. -/
def last_entry (cmd : Int) (tbl : List nv3041_lcd_init_cmd_t) : Option nv3041_lcd_init_cmd_t :=
  tbl.reverse.find? fun c => decide (c.cmd = cmd)

/-- The byte `v` is the first data byte of the last entry for `cmd` in `tbl`,
or `on_entry` if the table has no entry for `cmd`. -/
def shadow_tracks (cmd : Int) (tbl : List nv3041_lcd_init_cmd_t) (on_entry v : Nat) : Prop :=
  match last_entry cmd tbl with
  | some c => c.data.head? = some v
  | none => v = on_entry

/-- A platform whose bus rejects transmission number 3 (the first table
entry of an initialisation that starts at transmission 0) with `ESP_FAIL`
and accepts every other one. -/
def env_fail_3 : Env :=
  { tx_result := fun n => if n = 3 then -1 else ESP_OK, gpio_config_result := ESP_OK,
    calloc_ok := true }

/-- A platform whose bus rejects transmission number 0 with `ESP_FAIL` and
accepts every other one. -/
def env_fail_0 : Env :=
  { tx_result := fun n => if n = 0 then -1 else ESP_OK, gpio_config_result := ESP_OK,
    calloc_ok := true }

/-- A one-entry init table that sets MADCTL to `0xC0`. -/
def table_madctl : List nv3041_lcd_init_cmd_t := [⟨0x36, [0xC0], 1, 0⟩]

/-- A panel constructed for BGR order and 16 bits per pixel, without reset
line, with `table_madctl` as its init table. -/
def panel_bgr : nv3041_panel_t :=
  { reset_gpio_num := -1, reset_level := false, x_gap := 0, y_gap := 0,
    fb_bits_per_pixel := 16, madctl_val := 0x08, colmod_val := 0x01,
    init_cmds := some table_madctl }

/-- A configuration for BGR order and 18 bits per pixel with a reset line on
GPIO 5 and no vendor table. -/
def config_bgr18 : esp_lcd_panel_dev_config_t :=
  { reset_gpio_num := 5, rgb_ele_order := lcd_rgb_element_order_t.BGR, bits_per_pixel := 18,
    reset_active_high := false, vendor_config := none }

/-- The same configuration asking for 24 bits per pixel. -/
def config_bgr24 : esp_lcd_panel_dev_config_t :=
  { config_bgr18 with bits_per_pixel := 24 }

/-- The panel states a caller can hold: what the constructor hands out, and
what any operation of the driver leaves behind on such a state. -/
inductive panel_state : nv3041_panel_t → Prop where
  | new (env : Env) (w w1 : World) (io ret_panel : Bool)
      (cfg : Option esp_lcd_panel_dev_config_t) (code : esp_err_t) (p : nv3041_panel_t) :
      esp_lcd_new_panel_nv3041 env w io cfg ret_panel = (code, some p, w1) → panel_state p
  | reset (env : Env) (p : nv3041_panel_t) (w : World) :
      panel_state p → panel_state (panel_nv3041_reset env p w).2.1
  | init (env : Env) (p : nv3041_panel_t) (w : World) :
      panel_state p → panel_state (panel_nv3041_init env p w).2.1
  | draw_bitmap (env : Env) (p : nv3041_panel_t) (w : World)
      (x_start y_start x_end y_end : Int) (color_data : List Nat) :
      panel_state p →
      panel_state (panel_nv3041_draw_bitmap env p w x_start y_start x_end y_end color_data).2.1
  | invert_color (env : Env) (p : nv3041_panel_t) (w : World) (invert_color_data : Bool) :
      panel_state p → panel_state (panel_nv3041_invert_color env p w invert_color_data).2.1
  | mirror (env : Env) (p : nv3041_panel_t) (w : World) (mirror_x mirror_y : Bool) :
      panel_state p → panel_state (panel_nv3041_mirror env p w mirror_x mirror_y).2.1
  | swap_xy (env : Env) (p : nv3041_panel_t) (w : World) (swap_axes : Bool) :
      panel_state p → panel_state (panel_nv3041_swap_xy env p w swap_axes).2.1
  | set_gap (p : nv3041_panel_t) (w : World) (x_gap y_gap : Int) :
      panel_state p → panel_state (panel_nv3041_set_gap p w x_gap y_gap).2.1
  | disp_on_off (env : Env) (p : nv3041_panel_t) (w : World) (idf_before_5 on_off : Bool) :
      panel_state p → panel_state (panel_nv3041_disp_on_off env p w idf_before_5 on_off).2.1

/-- The data bytes of the last command `cmd` among the calls `evs` that the
bus accepted, that is the first `param_size` bytes of its buffer; `n` is the
number of the first transmission in `evs`. -/
def last_tx_accepted (env : Env) (cmd : Int) : Nat → List Event → Option (List Nat)
  | _, [] => none
  | n, Event.tx_param lcd_cmd param param_size :: evs =>
    match last_tx_accepted env cmd (n + 1) evs with
    | some d => some d
    | none =>
      if lcd_cmd = cmd ∧ env.tx_result n = ESP_OK then some (param.take param_size) else none
  | n, Event.tx_color _ _ _ :: evs => last_tx_accepted env cmd (n + 1) evs
  | n, Event.gpio_config _ :: evs => last_tx_accepted env cmd n evs
  | n, Event.gpio_set_level _ _ :: evs => last_tx_accepted env cmd n evs
  | n, Event.gpio_reset_pin _ :: evs => last_tx_accepted env cmd n evs
  | n, Event.vTaskDelay _ :: evs => last_tx_accepted env cmd n evs

/-- The shadow byte `v` is the first byte of the data `last`, or the value
`on_entry` if there is no such data. -/
def shadow_reflects (last : Option (List Nat)) (on_entry v : Nat) : Prop :=
  match last with
  | some d => d.head? = some v
  | none => v = on_entry

/-- The platform calls made from the platform state `w` to the later state
`w1`. -/
def calls_since (w w1 : World) : List Event :=
  w1.trace.drop w.trace.length

/-! ## Properties -/

/-! ### Bytes and the draw window -/

theorem nat_ldiff_255 (n : Nat) : Nat.ldiff 255 n = 255 - n % 256 := by
  apply Nat.eq_of_testBit_eq
  intro i
  have h : (255 : Nat) - n % 256 = 2 ^ 8 - (n % 2 ^ 8 + 1) := by omega
  rw [Nat.testBit_ldiff, h, Nat.testBit_two_pow_sub_succ (Nat.mod_lt _ (by norm_num)),
    Nat.testBit_mod_two_pow]
  have h255 : (255 : Nat) = 2 ^ 8 - 1 := by norm_num
  rw [h255, Nat.testBit_two_pow_sub_one]
  by_cases hi : i < 8 <;> simp [hi]

theorem int_land_255 (v : Int) : Int.land v 0xFF = v % 256 := by
  cases v with
  | ofNat n =>
    show ((Nat.land n 255 : Nat) : Int) = (n : Int) % 256
    have : Nat.land n 255 = n % 256 := Nat.and_pow_two_sub_one_eq_mod n 8
    rw [this]; norm_cast
  | negSucc n =>
    show ((Nat.ldiff 255 n : Nat) : Int) = Int.negSucc n % 256
    rw [nat_ldiff_255]
    have := Int.negSucc_eq n
    omega

theorem to_uint8_land (v : Int) : to_uint8 (Int.land v 0xFF) = (Int.land v 0xFF).toNat := by
  unfold to_uint8
  rw [int_land_255]
  congr 1
  omega

theorem hi_lo_big_endian (v : Int) :
    hi v < 256 ∧ lo v < 256 ∧ ((hi v * 256 + lo v : Nat) : Int) = v % 65536 := by
  unfold hi lo
  rw [int_land_255, int_land_255, Int.shiftRight_eq_div_pow]
  have e : (((2 : Nat) ^ 8 : Nat) : Int) = 256 := by norm_num
  rw [e]
  have h1 : (0 : Int) ≤ v / 256 % 256 := Int.emod_nonneg _ (by norm_num)
  have h2 : (0 : Int) ≤ v % 256 := Int.emod_nonneg _ (by norm_num)
  have h3 : v / 256 % 256 < 256 := Int.emod_lt_of_pos _ (by norm_num)
  have h4 : v % 256 < 256 := Int.emod_lt_of_pos _ (by norm_num)
  refine ⟨by omega, by omega, ?_⟩
  push_cast
  rw [Int.toNat_of_nonneg h1, Int.toNat_of_nonneg h2]
  omega

theorem hi_eq (v : Int) : hi v = (v / 256 % 256).toNat := by
  unfold hi
  rw [int_land_255, Int.shiftRight_eq_div_pow]
  norm_num

theorem lo_eq (v : Int) : lo v = (v % 256).toNat := by
  unfold lo
  rw [int_land_255]

theorem hi_wrap_int (v : Int) : hi (wrap_int v) = hi v := by
  rw [hi_eq, hi_eq]
  unfold wrap_int
  congr 1
  omega

theorem lo_wrap_int (v : Int) : lo (wrap_int v) = lo v := by
  rw [lo_eq, lo_eq]
  unfold wrap_int
  congr 1
  omega

theorem hi_wrap_int_pred (v : Int) : hi (wrap_int (wrap_int v - 1)) = hi (v - 1) := by
  rw [hi_eq, hi_eq]
  unfold wrap_int
  congr 1
  omega

theorem lo_wrap_int_pred (v : Int) : lo (wrap_int (wrap_int v - 1)) = lo (v - 1) := by
  rw [lo_eq, lo_eq]
  unfold wrap_int
  congr 1
  omega

theorem wrap_int_of_range (v : Int) (h1 : -2147483648 ≤ v) (h2 : v ≤ 2147483647) :
    wrap_int v = v := by
  unfold wrap_int
  omega

theorem wrap_int_sub (a b : Int) (h1 : -2147483648 ≤ a - b) (h2 : a - b ≤ 2147483647) :
    wrap_int (wrap_int a - wrap_int b) = a - b := by
  unfold wrap_int
  omega

/-- The length `panel_nv3041_draw_bitmap` computes for a window of `a` by `b`
pixels, as long as the number of bits fits in an `int`. -/
theorem draw_len (a b : Int) (fb : Nat) (ha : 0 < a) (hb : 0 < b)
    (hfb : fb = 16 ∨ fb = 24) (hrange : a * b * (fb : Int) ≤ 2147483647) :
    to_size_t (Int.tdiv (wrap_int (wrap_int (a * b) * (fb : Int))) 8) =
      (a * b * ((fb / 8 : Nat) : Int)).toNat := by
  have hab : 0 < a * b := mul_pos ha hb
  have hfb1 : (1 : Int) ≤ (fb : Int) := by rcases hfb with h | h <;> subst h <;> norm_num
  have hle : a * b ≤ a * b * (fb : Int) := le_mul_of_one_le_right (le_of_lt hab) hfb1
  rw [wrap_int_of_range (a * b) (by omega) (by omega),
    wrap_int_of_range (a * b * (fb : Int)) (by omega) hrange,
    Int.tdiv_eq_ediv (by omega) (by norm_num)]
  generalize a * b = n at hab hle hrange ⊢
  unfold to_size_t
  rcases hfb with h | h <;> subst h <;> norm_num at hrange ⊢ <;> congr 1 <;> omega

/-- The three platform calls of a draw request that passes the assertion on a
bus that accepts them; the length is the one the `int` arithmetic yields. -/
theorem draw_bitmap_trace (env : Env) (p : nv3041_panel_t) (w : World)
    (x_start y_start x_end y_end : Int) (color_data : List Nat)
    (hx : x_start < x_end) (hy : y_start < y_end)
    (hio : ∀ n, n < 3 → env.tx_result (w.sent + n) = ESP_OK) :
    panel_nv3041_draw_bitmap env p w x_start y_start x_end y_end color_data =
      (Outcome.ret ESP_OK, p,
        { trace := w.trace ++
            [Event.tx_param LCD_CMD_CASET
               [hi (x_start + p.x_gap), lo (x_start + p.x_gap),
                hi (x_end + p.x_gap - 1), lo (x_end + p.x_gap - 1)] 4,
             Event.tx_param LCD_CMD_RASET
               [hi (y_start + p.y_gap), lo (y_start + p.y_gap),
                hi (y_end + p.y_gap - 1), lo (y_end + p.y_gap - 1)] 4,
             Event.tx_color LCD_CMD_RAMWR color_data
               (to_size_t (Int.tdiv (wrap_int (wrap_int
                 (wrap_int (wrap_int (x_end + p.x_gap) - wrap_int (x_start + p.x_gap)) *
                  wrap_int (wrap_int (y_end + p.y_gap) - wrap_int (y_start + p.y_gap))) *
                 (p.fb_bits_per_pixel : Int))) 8))],
          sent := w.sent + 3 }) := by
  have h0 := hio 0 (by norm_num)
  have h1 := hio 1 (by norm_num)
  have h2 := hio 2 (by norm_num)
  simp only [Nat.add_zero] at h0
  have b1 := hi_wrap_int (x_start + p.x_gap)
  have b2 := lo_wrap_int (x_start + p.x_gap)
  have b3 := hi_wrap_int_pred (x_end + p.x_gap)
  have b4 := lo_wrap_int_pred (x_end + p.x_gap)
  have b5 := hi_wrap_int (y_start + p.y_gap)
  have b6 := lo_wrap_int (y_start + p.y_gap)
  have b7 := hi_wrap_int_pred (y_end + p.y_gap)
  have b8 := lo_wrap_int_pred (y_end + p.y_gap)
  unfold hi at b1 b3 b5 b7
  unfold lo at b2 b4 b6 b8
  simp only [panel_nv3041_draw_bitmap, esp_lcd_panel_io_tx_param, esp_lcd_panel_io_tx_color,
    hx, hy, and_self, not_true_eq_false, if_false, h0, h1, h2, ne_eq, to_uint8_land,
    b1, b2, b3, b4, b5, b6, b7, b8, hi, lo]
  simp [Nat.add_assoc]

theorem draw_bitmap_ok (env : Env) (p : nv3041_panel_t) (w : World)
    (x_start y_start x_end y_end : Int) (color_data : List Nat)
    (hx : x_start < x_end) (hy : y_start < y_end)
    (hfb : p.fb_bits_per_pixel = 16 ∨ p.fb_bits_per_pixel = 24)
    (hrange : (x_end - x_start) * (y_end - y_start) * (p.fb_bits_per_pixel : Int) ≤ 2147483647)
    (hio : ∀ n, n < 3 → env.tx_result (w.sent + n) = ESP_OK) :
    panel_nv3041_draw_bitmap env p w x_start y_start x_end y_end color_data =
      (Outcome.ret ESP_OK, p,
        { trace := w.trace ++
            [Event.tx_param LCD_CMD_CASET
               [hi (x_start + p.x_gap), lo (x_start + p.x_gap),
                hi (x_end + p.x_gap - 1), lo (x_end + p.x_gap - 1)] 4,
             Event.tx_param LCD_CMD_RASET
               [hi (y_start + p.y_gap), lo (y_start + p.y_gap),
                hi (y_end + p.y_gap - 1), lo (y_end + p.y_gap - 1)] 4,
             Event.tx_color LCD_CMD_RAMWR color_data
               ((x_end - x_start) * (y_end - y_start) *
                 ((p.fb_bits_per_pixel / 8 : Nat) : Int)).toNat],
          sent := w.sent + 3 }) := by
  have ha : 0 < x_end - x_start := by omega
  have hb : 0 < y_end - y_start := by omega
  have hfb1 : (1 : Int) ≤ (p.fb_bits_per_pixel : Int) := by
    rcases hfb with h | h <;> rw [h] <;> norm_num
  have hab : 0 < (x_end - x_start) * (y_end - y_start) := mul_pos ha hb
  have hle : (x_end - x_start) * (y_end - y_start) ≤
      (x_end - x_start) * (y_end - y_start) * (p.fb_bits_per_pixel : Int) :=
    le_mul_of_one_le_right (le_of_lt hab) hfb1
  have hxa : x_end - x_start ≤ (x_end - x_start) * (y_end - y_start) :=
    le_mul_of_one_le_right (le_of_lt ha) (by omega)
  have hyb : y_end - y_start ≤ (x_end - x_start) * (y_end - y_start) :=
    le_mul_of_one_le_left (le_of_lt hb) (by omega)
  have ex : wrap_int (wrap_int (x_end + p.x_gap) - wrap_int (x_start + p.x_gap)) =
      x_end - x_start := by
    rw [wrap_int_sub _ _ (by omega) (by omega)]; ring
  have ey : wrap_int (wrap_int (y_end + p.y_gap) - wrap_int (y_start + p.y_gap)) =
      y_end - y_start := by
    rw [wrap_int_sub _ _ (by omega) (by omega)]; ring
  rw [draw_bitmap_trace env p w x_start y_start x_end y_end color_data hx hy hio, ex, ey,
    draw_len (x_end - x_start) (y_end - y_start) p.fb_bits_per_pixel ha hb hfb hrange]

theorem draw_bitmap_assert_fires (env : Env) (p : nv3041_panel_t) (w : World)
    (x_start y_start x_end y_end : Int) (color_data : List Nat)
    (h : x_end ≤ x_start ∨ y_end ≤ y_start) :
    panel_nv3041_draw_bitmap env p w x_start y_start x_end y_end color_data =
      (Outcome.assert_fail, p, w) := by
  have h' : ¬ (x_start < x_end ∧ y_start < y_end) := by omega
  simp only [panel_nv3041_draw_bitmap, h', not_false_eq_true, if_true]

theorem draw_bitmap_assert_passes (env : Env) (p : nv3041_panel_t) (w : World)
    (x_start y_start x_end y_end : Int) (color_data : List Nat)
    (hx : x_start < x_end) (hy : y_start < y_end) :
    (panel_nv3041_draw_bitmap env p w x_start y_start x_end y_end color_data).1 ≠
      Outcome.assert_fail := by
  simp only [panel_nv3041_draw_bitmap, hx, hy, and_self, not_true_eq_false, if_false]
  split_ifs <;> simp

/-! ### Reset -/

theorem reset_software (env : Env) (p : nv3041_panel_t) (w : World)
    (hline : p.reset_gpio_num < 0) :
    panel_nv3041_reset env p w =
      (Outcome.ret (env.tx_result w.sent), p,
        { trace := w.trace ++ Event.tx_param LCD_CMD_SWRESET [] 0 ::
            (if env.tx_result w.sent = ESP_OK then [Event.vTaskDelay 120] else []),
          sent := w.sent + 1 }) := by
  have h : ¬ (p.reset_gpio_num ≥ 0) := by omega
  by_cases hr : env.tx_result w.sent = ESP_OK
  · simp [panel_nv3041_reset, esp_lcd_panel_io_tx_param, vTaskDelay, World.log, h, hr]
  · simp [panel_nv3041_reset, esp_lcd_panel_io_tx_param, h, hr]

theorem reset_hardware (env : Env) (p : nv3041_panel_t) (w : World)
    (hline : 0 ≤ p.reset_gpio_num) :
    panel_nv3041_reset env p w =
      (Outcome.ret ESP_OK, p,
        { trace := w.trace ++
            [Event.gpio_set_level p.reset_gpio_num p.reset_level, Event.vTaskDelay 120,
             Event.gpio_set_level p.reset_gpio_num (!p.reset_level), Event.vTaskDelay 120],
          sent := w.sent }) := by
  simp [panel_nv3041_reset, gpio_set_level, vTaskDelay, World.log, hline]

/-! ### Constructor -/

theorem new_panel_sent (env : Env) (w : World) (io : Bool)
    (cfg : Option esp_lcd_panel_dev_config_t) (ret_panel : Bool) :
    (esp_lcd_new_panel_nv3041 env w io cfg ret_panel).2.2.sent = w.sent := by
  unfold esp_lcd_new_panel_nv3041 new_panel_err gpio_config gpio_reset_pin World.log
  cases cfg with
  | none => rfl
  | some cfg =>
    simp only
    split_ifs <;> try rfl
    all_goals (split <;> try rfl)
    all_goals (split <;> try rfl)

theorem new_panel_unsupported (env : Env) (w : World) (cfg : esp_lcd_panel_dev_config_t)
    (hmem : env.calloc_ok = true)
    (hgpio : 0 ≤ cfg.reset_gpio_num → env.gpio_config_result = ESP_OK)
    (hcfg : cfg.rgb_ele_order = lcd_rgb_element_order_t.other ∨
      (cfg.bits_per_pixel ≠ 12 ∧ cfg.bits_per_pixel ≠ 16 ∧ cfg.bits_per_pixel ≠ 18)) :
    esp_lcd_new_panel_nv3041 env w true (some cfg) true =
      (ESP_ERR_NOT_SUPPORTED, none,
        { trace := w.trace ++ claim_events cfg ++ release_events cfg, sent := w.sent }) := by
  by_cases hline : 0 ≤ cfg.reset_gpio_num
  · have hg := hgpio hline
    rcases hcfg with ho | ⟨h12, h16, h18⟩
    · simp [esp_lcd_new_panel_nv3041, new_panel_err, gpio_config, gpio_reset_pin, World.log,
        new_panel_color_order, claim_events, release_events, hmem, hline, hg, ho]
    · cases ho : cfg.rgb_ele_order <;>
        simp [esp_lcd_new_panel_nv3041, new_panel_err, gpio_config, gpio_reset_pin, World.log,
          new_panel_color_order, new_panel_bits_per_pixel, claim_events, release_events,
          hmem, hline, hg, ho, h12, h16, h18]
  · rcases hcfg with ho | ⟨h12, h16, h18⟩
    · simp [esp_lcd_new_panel_nv3041, new_panel_err, new_panel_color_order,
        claim_events, release_events, hmem, hline, ho]
    · cases ho : cfg.rgb_ele_order <;>
        simp [esp_lcd_new_panel_nv3041, new_panel_err, claim_events, release_events,
          new_panel_color_order, new_panel_bits_per_pixel, hmem, hline, ho, h12, h16, h18]

theorem new_panel_supported (env : Env) (w : World) (cfg : esp_lcd_panel_dev_config_t)
    (hmem : env.calloc_ok = true)
    (hgpio : 0 ≤ cfg.reset_gpio_num → env.gpio_config_result = ESP_OK)
    (horder : cfg.rgb_ele_order ≠ lcd_rgb_element_order_t.other)
    (hbpp : cfg.bits_per_pixel = 12 ∨ cfg.bits_per_pixel = 16 ∨ cfg.bits_per_pixel = 18) :
    esp_lcd_new_panel_nv3041 env w true (some cfg) true =
      (ESP_OK, some (new_panel_result cfg),
        { trace := w.trace ++ claim_events cfg, sent := w.sent }) := by
  by_cases hline : 0 ≤ cfg.reset_gpio_num
  · have hg := hgpio hline
    cases ho : cfg.rgb_ele_order <;> cases hv : cfg.vendor_config <;>
      rcases hbpp with hb | hb | hb <;>
      first
      | exact absurd ho horder
      | simp [esp_lcd_new_panel_nv3041, gpio_config, World.log, new_panel_result, calloc_panel,
        new_panel_color_order, new_panel_bits_per_pixel, claim_events, hmem, hline, hg, ho,
        hb, hv, LCD_CMD_BGR_BIT]
  · cases ho : cfg.rgb_ele_order <;> cases hv : cfg.vendor_config <;>
      rcases hbpp with hb | hb | hb <;>
      first
      | exact absurd ho horder
      | simp [esp_lcd_new_panel_nv3041, new_panel_result, calloc_panel,
          new_panel_color_order, new_panel_bits_per_pixel, claim_events, hmem, hline, ho, hb, hv,
          LCD_CMD_BGR_BIT]

theorem new_panel_ok_inv (env : Env) (w w1 : World) (cfg : esp_lcd_panel_dev_config_t)
    (p : nv3041_panel_t)
    (h : esp_lcd_new_panel_nv3041 env w true (some cfg) true = (ESP_OK, some p, w1)) :
    p = new_panel_result cfg ∧ cfg.rgb_ele_order ≠ lcd_rgb_element_order_t.other ∧
      (cfg.bits_per_pixel = 12 ∨ cfg.bits_per_pixel = 16 ∨ cfg.bits_per_pixel = 18) := by
  have hmem : env.calloc_ok = true := by
    by_contra hm
    simp [esp_lcd_new_panel_nv3041, hm, ESP_ERR_NO_MEM, ESP_OK] at h
  have hgpio : 0 ≤ cfg.reset_gpio_num → env.gpio_config_result = ESP_OK := by
    intro hline
    by_contra hg
    simp [esp_lcd_new_panel_nv3041, hmem, hline, gpio_config, hg, new_panel_err] at h
  have horder : cfg.rgb_ele_order ≠ lcd_rgb_element_order_t.other := by
    intro ho
    rw [new_panel_unsupported env w cfg hmem hgpio (Or.inl ho)] at h
    simp [ESP_ERR_NOT_SUPPORTED, ESP_OK] at h
  have hbpp : cfg.bits_per_pixel = 12 ∨ cfg.bits_per_pixel = 16 ∨ cfg.bits_per_pixel = 18 := by
    by_contra hb
    rw [new_panel_unsupported env w cfg hmem hgpio (Or.inr (by omega))] at h
    simp [ESP_ERR_NOT_SUPPORTED, ESP_OK] at h
  rw [new_panel_supported env w cfg hmem hgpio horder hbpp] at h
  simp only [Prod.mk.injEq, Option.some.injEq, true_and] at h
  exact ⟨h.1.symm, horder, hbpp⟩

theorem new_panel_err_none (cfg : esp_lcd_panel_dev_config_t) (ret : esp_err_t) (w : World) :
    (new_panel_err cfg ret w).2.1 = none := by
  unfold new_panel_err
  split_ifs <;> rfl

theorem new_panel_bits_per_pixel_fb (bits_per_pixel : Nat) (q q2 : nv3041_panel_t)
    (h : new_panel_bits_per_pixel bits_per_pixel q = some q2) :
    q2.fb_bits_per_pixel = 16 ∨ q2.fb_bits_per_pixel = 24 := by
  unfold new_panel_bits_per_pixel at h
  split_ifs at h <;> simp at h <;> subst h <;> simp

theorem new_panel_fb_bits (env : Env) (w w1 : World) (io ret_panel : Bool)
    (cfg : Option esp_lcd_panel_dev_config_t) (code : esp_err_t) (p : nv3041_panel_t)
    (h : esp_lcd_new_panel_nv3041 env w io cfg ret_panel = (code, some p, w1)) :
    p.fb_bits_per_pixel = 16 ∨ p.fb_bits_per_pixel = 24 := by
  have h' : (esp_lcd_new_panel_nv3041 env w io cfg ret_panel).2.1 = some p := by rw [h]
  unfold esp_lcd_new_panel_nv3041 at h'
  cases cfg with
  | none => simp at h'
  | some cfg =>
    simp only at h'
    by_cases h1 : io = true ∧ ret_panel = true
    · by_cases h2 : env.calloc_ok = false
      · simp [h1, h2] at h'
      · rw [if_neg (not_not_intro h1), if_neg h2] at h'
        split_ifs at h'
        all_goals
          first
          | (rw [new_panel_err_none] at h'; simp at h')
          | (cases ho : new_panel_color_order cfg.rgb_ele_order calloc_panel with
            | none =>
              simp only [ho] at h'
              rw [new_panel_err_none] at h'
              simp at h'
            | some q =>
              cases hb : new_panel_bits_per_pixel cfg.bits_per_pixel q with
              | none =>
                simp only [ho, hb] at h'
                rw [new_panel_err_none] at h'
                simp at h'
              | some q2 =>
                have hq2 := new_panel_bits_per_pixel_fb _ q q2 hb
                simp only [ho, hb, Option.some.injEq] at h'
                subst h'
                cases hv : cfg.vendor_config <;> simpa [hv] using hq2)
    · simp [h1] at h'

/-! ### The shadow of the addressing-mode register -/

theorem testBit_255 (i : Nat) : Nat.testBit 255 i = decide (i < 8) := by
  have h : (255 : Nat) = 2 ^ 8 - 1 := by norm_num
  rw [h, Nat.testBit_two_pow_sub_one]

theorem madctl_assign_lt (m k : Nat) (set : Bool) (hk : k < 8) :
    madctl_assign m (2 ^ k) set < 256 := by
  unfold madctl_assign
  split
  · exact Nat.mod_lt _ (by norm_num)
  · have h1 : m &&& (0xFF ^^^ 2 ^ k) ≤ 0xFF ^^^ 2 ^ k := Nat.and_le_right
    have h2 : 0xFF ^^^ 2 ^ k < 256 := by interval_cases k <;> decide
    omega

theorem madctl_assign_testBit (m k : Nat) (set : Bool) (i : Nat) (hk : k < 8) (hi : i < 8) :
    (madctl_assign m (2 ^ k) set).testBit i = if i = k then set else m.testBit i := by
  unfold madctl_assign
  have h256 : (256 : Nat) = 2 ^ 8 := by norm_num
  cases set
  · simp only [Bool.false_eq_true, if_false, Nat.testBit_land, Nat.testBit_xor, testBit_255,
      Nat.testBit_two_pow]
    by_cases hik : i = k
    · subst hik; simp [hi]
    · have : ¬ k = i := fun h => hik h.symm
      simp [hi, hik, this]
  · simp only [if_true, h256, Nat.testBit_mod_two_pow, Nat.testBit_lor, Nat.testBit_two_pow]
    by_cases hik : i = k
    · subst hik; simp [hi]
    · have : ¬ k = i := fun h => hik h.symm
      simp [hi, hik, this]

theorem mirror_eq (env : Env) (p : nv3041_panel_t) (w : World) (mx my : Bool)
    (hio : env.tx_result w.sent = ESP_OK) :
    panel_nv3041_mirror env p w mx my =
      (Outcome.ret ESP_OK, { p with madctl_val := mirror_byte p.madctl_val mx my },
        { trace := w.trace ++ [Event.tx_param LCD_CMD_MADCTL [mirror_byte p.madctl_val mx my] 1],
          sent := w.sent + 1 }) := by
  simp [panel_nv3041_mirror, esp_lcd_panel_io_tx_param, hio, mirror_byte]

theorem swap_xy_eq (env : Env) (p : nv3041_panel_t) (w : World) (s : Bool)
    (hio : env.tx_result w.sent = ESP_OK) :
    panel_nv3041_swap_xy env p w s =
      (Outcome.ret ESP_OK, { p with madctl_val := swap_byte p.madctl_val s },
        { trace := w.trace ++ [Event.tx_param LCD_CMD_MADCTL [swap_byte p.madctl_val s] 1],
          sent := w.sent + 1 }) := by
  simp [panel_nv3041_swap_xy, esp_lcd_panel_io_tx_param, hio, swap_byte]

theorem mirror_byte_lt (m : Nat) (mx my : Bool) : mirror_byte m mx my < 256 :=
  madctl_assign_lt _ 7 _ (by norm_num)

theorem swap_byte_lt (m : Nat) (s : Bool) : swap_byte m s < 256 :=
  madctl_assign_lt _ 5 _ (by norm_num)

theorem mirror_bits (m : Nat) (mx my : Bool) (i : Nat) (hi : i < 8) :
    (mirror_byte m mx my).testBit i =
      if i = 7 then my else if i = 6 then mx else m.testBit i := by
  unfold mirror_byte
  have h6 : LCD_CMD_MX_BIT = 2 ^ 6 := rfl
  have h7 : LCD_CMD_MY_BIT = 2 ^ 7 := rfl
  rw [h6, h7, madctl_assign_testBit _ 7 _ i (by norm_num) hi,
    madctl_assign_testBit _ 6 _ i (by norm_num) hi]

theorem swap_bits (m : Nat) (s : Bool) (i : Nat) (hi : i < 8) :
    (swap_byte m s).testBit i = if i = 5 then s else m.testBit i :=
  madctl_assign_testBit _ 5 _ i (by norm_num) hi

theorem byte_ext (a b : Nat) (ha : a < 256) (hb : b < 256)
    (h : ∀ i, i < 8 → a.testBit i = b.testBit i) : a = b := by
  apply Nat.eq_of_testBit_eq
  intro i
  by_cases hi : i < 8
  · exact h i hi
  · have h2 : 256 ≤ 2 ^ i := by
      have : 2 ^ 8 ≤ 2 ^ i := Nat.pow_le_pow_right (by norm_num) (by omega)
      simpa using this
    rw [Nat.testBit_eq_false_of_lt (by omega), Nat.testBit_eq_false_of_lt (by omega)]

theorem mirror_orientation (m : Nat) (mx my : Bool) :
    orientation_of (mirror_byte m mx my) m mx my (m.testBit 5) := by
  refine ⟨mirror_byte_lt _ _ _, ?_, ?_, ?_, ?_⟩
  · rw [mirror_bits _ _ _ 6 (by norm_num)]; simp
  · rw [mirror_bits _ _ _ 7 (by norm_num)]; simp
  · rw [mirror_bits _ _ _ 5 (by norm_num)]; simp
  · intro i hi h5 h6 h7
    rw [mirror_bits _ _ _ i hi]; simp [h6, h7]

theorem swap_orientation (m : Nat) (s : Bool) :
    orientation_of (swap_byte m s) m (m.testBit 6) (m.testBit 7) s := by
  refine ⟨swap_byte_lt _ _, ?_, ?_, ?_, ?_⟩
  · rw [swap_bits _ _ 6 (by norm_num)]; simp
  · rw [swap_bits _ _ 7 (by norm_num)]; simp
  · rw [swap_bits _ _ 5 (by norm_num)]; simp
  · intro i hi h5 h6 h7
    rw [swap_bits _ _ i hi]; simp [h5]

theorem mirror_swap_bits (m : Nat) (mx my s : Bool) (i : Nat) (hi : i < 8) :
    (swap_byte (mirror_byte m mx my) s).testBit i =
      if i = 5 then s else if i = 7 then my else if i = 6 then mx else m.testBit i := by
  rw [swap_bits _ _ i hi, mirror_bits _ _ _ i hi]

theorem swap_mirror_bits (m : Nat) (mx my s : Bool) (i : Nat) (hi : i < 8) :
    (mirror_byte (swap_byte m s) mx my).testBit i =
      if i = 5 then s else if i = 7 then my else if i = 6 then mx else m.testBit i := by
  rw [mirror_bits _ _ _ i hi, swap_bits _ _ i hi]
  by_cases h5 : i = 5
  · subst h5; simp
  · simp [h5]

theorem swap_mirror_comm (m : Nat) (mx my s : Bool) :
    mirror_byte (swap_byte m s) mx my = swap_byte (mirror_byte m mx my) s := by
  apply byte_ext _ _ (mirror_byte_lt _ _ _) (swap_byte_lt _ _)
  intro i hi
  rw [mirror_swap_bits _ _ _ _ i hi, swap_mirror_bits _ _ _ _ i hi]

theorem mirror_swap_orientation (m : Nat) (mx my s : Bool) :
    orientation_of (swap_byte (mirror_byte m mx my) s) m mx my s := by
  refine ⟨swap_byte_lt _ _, ?_, ?_, ?_, ?_⟩
  · rw [mirror_swap_bits _ _ _ _ 6 (by norm_num)]; simp
  · rw [mirror_swap_bits _ _ _ _ 7 (by norm_num)]; simp
  · rw [mirror_swap_bits _ _ _ _ 5 (by norm_num)]; simp
  · intro i hi h5 h6 h7
    rw [mirror_swap_bits _ _ _ _ i hi]; simp [h5, h6, h7]

theorem mirror_then_swap_eq (env : Env) (p : nv3041_panel_t) (w : World) (mx my s : Bool)
    (hio : ∀ n, env.tx_result n = ESP_OK) :
    mirror_then_swap env p w mx my s =
      (Outcome.ret ESP_OK, { p with madctl_val := swap_byte (mirror_byte p.madctl_val mx my) s },
        { trace := w.trace ++
            [Event.tx_param LCD_CMD_MADCTL [mirror_byte p.madctl_val mx my] 1,
             Event.tx_param LCD_CMD_MADCTL [swap_byte (mirror_byte p.madctl_val mx my) s] 1],
          sent := w.sent + 2 }) := by
  unfold mirror_then_swap
  simp only [mirror_eq env p w mx my (hio _)]
  rw [swap_xy_eq _ _ _ _ (hio _)]
  simp

theorem swap_then_mirror_eq (env : Env) (p : nv3041_panel_t) (w : World) (mx my s : Bool)
    (hio : ∀ n, env.tx_result n = ESP_OK) :
    swap_then_mirror env p w mx my s =
      (Outcome.ret ESP_OK, { p with madctl_val := mirror_byte (swap_byte p.madctl_val s) mx my },
        { trace := w.trace ++
            [Event.tx_param LCD_CMD_MADCTL [swap_byte p.madctl_val s] 1,
             Event.tx_param LCD_CMD_MADCTL [mirror_byte (swap_byte p.madctl_val s) mx my] 1],
          sent := w.sent + 2 }) := by
  unfold swap_then_mirror
  simp only [swap_xy_eq env p w s (hio _)]
  rw [mirror_eq _ _ _ _ _ (hio _)]
  simp

/-! ### Initialisation: the loop over the table -/

theorem last_entry_cons (cmd : Int) (c : nv3041_lcd_init_cmd_t)
    (tbl : List nv3041_lcd_init_cmd_t) :
    last_entry cmd (c :: tbl) =
      match last_entry cmd tbl with
      | some e => some e
      | none => if c.cmd = cmd then some c else none := by
  unfold last_entry
  rw [List.reverse_cons, List.find?_append]
  cases h : List.find? (fun c => decide (c.cmd = cmd)) tbl.reverse with
  | some e => simp
  | none =>
    by_cases hc : c.cmd = cmd <;> simp [List.find?_cons, hc]

theorem last_entry_split (cmd : Int) (l1 l2 : List nv3041_lcd_init_cmd_t)
    (c : nv3041_lcd_init_cmd_t) (hc : c.cmd = cmd) (hl2 : ∀ d ∈ l2, d.cmd ≠ cmd) :
    last_entry cmd (l1 ++ c :: l2) = some c := by
  unfold last_entry
  rw [List.reverse_append, List.reverse_cons, List.append_assoc, List.find?_append]
  have h : List.find? (fun c => decide (c.cmd = cmd)) l2.reverse = none := by
    rw [List.find?_eq_none]
    intro d hd
    have := hl2 d (List.mem_reverse.mp hd)
    simpa using this
  rw [h]
  simp [List.find?_cons, hc]

theorem init_shadow_update_frame (c : nv3041_lcd_init_cmd_t) (p p1 : nv3041_panel_t)
    (h : init_shadow_update c p = some p1) :
    p1 = { p with madctl_val := p1.madctl_val, colmod_val := p1.colmod_val } := by
  unfold init_shadow_update at h
  split_ifs at h
  · cases hd : c.data.head? with
    | none => simp [hd] at h
    | some b => simp [hd] at h; subst h; rfl
  · cases hd : c.data.head? with
    | none => simp [hd] at h
    | some b => simp [hd] at h; subst h; rfl
  · simp at h; subst h; rfl

theorem init_shadow_update_madctl (c : nv3041_lcd_init_cmd_t) (p p1 : nv3041_panel_t)
    (h : init_shadow_update c p = some p1) :
    if c.cmd = LCD_CMD_MADCTL then c.data.head? = some p1.madctl_val
    else p1.madctl_val = p.madctl_val := by
  unfold init_shadow_update at h
  by_cases hc : c.cmd = LCD_CMD_MADCTL
  · rw [if_pos hc] at h ⊢
    cases hd : c.data.head? with
    | none => simp [hd] at h
    | some b => simp [hd] at h; subst h; rfl
  · rw [if_neg hc] at h ⊢
    split_ifs at h
    · cases hd : c.data.head? with
      | none => simp [hd] at h
      | some b => simp [hd] at h; subst h; rfl
    · simp at h; subst h; rfl

theorem init_shadow_update_colmod (c : nv3041_lcd_init_cmd_t) (p p1 : nv3041_panel_t)
    (h : init_shadow_update c p = some p1) :
    if c.cmd = LCD_CMD_COLMOD then c.data.head? = some p1.colmod_val
    else p1.colmod_val = p.colmod_val := by
  unfold init_shadow_update at h
  by_cases hc : c.cmd = LCD_CMD_COLMOD
  · have hc' : ¬ c.cmd = LCD_CMD_MADCTL := by rw [hc]; decide
    rw [if_neg hc', if_pos hc] at h
    rw [if_pos hc]
    cases hd : c.data.head? with
    | none => simp [hd] at h
    | some b => simp [hd] at h; subst h; rfl
  · rw [if_neg hc] at h ⊢
    split_ifs at h
    · cases hd : c.data.head? with
      | none => simp [hd] at h
      | some b => simp [hd] at h; subst h; rfl
    · simp at h; subst h; rfl

theorem init_shadow_update_defined (c : nv3041_lcd_init_cmd_t) (p : nv3041_panel_t)
    (h : c.cmd = LCD_CMD_MADCTL ∨ c.cmd = LCD_CMD_COLMOD → c.data ≠ []) :
    ∃ p1, init_shadow_update c p = some p1 := by
  unfold init_shadow_update
  split_ifs with h1 h2
  · cases hd : c.data with
    | nil => exact absurd hd (h (Or.inl h1))
    | cons b l => exact ⟨_, rfl⟩
  · cases hd : c.data with
    | nil => exact absurd hd (h (Or.inr h2))
    | cons b l => exact ⟨_, rfl⟩
  · exact ⟨_, rfl⟩

theorem table_ok_cons (c : nv3041_lcd_init_cmd_t) (rest : List nv3041_lcd_init_cmd_t)
    (h : table_ok (c :: rest)) :
    (c.cmd = LCD_CMD_MADCTL ∨ c.cmd = LCD_CMD_COLMOD → c.data ≠ []) ∧ table_ok rest :=
  ⟨h c (List.mem_cons_self _ _), fun d hd => h d (List.mem_cons_of_mem _ hd)⟩

theorem loop_cons_undefined (env : Env) (c : nv3041_lcd_init_cmd_t)
    (rest : List nv3041_lcd_init_cmd_t) (p : nv3041_panel_t) (w : World)
    (hu : init_shadow_update c p = none) :
    init_cmds_loop env (c :: rest) p w = (Outcome.undefined, p, w) := by
  simp [init_cmds_loop, hu]

theorem loop_cons_fail (env : Env) (c : nv3041_lcd_init_cmd_t)
    (rest : List nv3041_lcd_init_cmd_t) (p p1 : nv3041_panel_t) (w : World)
    (hu : init_shadow_update c p = some p1) (hr : env.tx_result w.sent ≠ ESP_OK) :
    init_cmds_loop env (c :: rest) p w =
      (Outcome.ret (env.tx_result w.sent), p1,
        { trace := w.trace ++ [Event.tx_param c.cmd c.data c.data_bytes], sent := w.sent + 1 }) := by
  simp [init_cmds_loop, hu, esp_lcd_panel_io_tx_param, hr]

theorem loop_cons_ok (env : Env) (c : nv3041_lcd_init_cmd_t)
    (rest : List nv3041_lcd_init_cmd_t) (p p1 : nv3041_panel_t) (w : World)
    (hu : init_shadow_update c p = some p1) (hr : env.tx_result w.sent = ESP_OK) :
    init_cmds_loop env (c :: rest) p w =
      init_cmds_loop env rest p1
        { trace := w.trace ++ [Event.tx_param c.cmd c.data c.data_bytes,
            Event.vTaskDelay c.delay_ms],
          sent := w.sent + 1 } := by
  simp [init_cmds_loop, hu, esp_lcd_panel_io_tx_param, hr, vTaskDelay, World.log]

theorem loop_mono (env : Env) (tbl : List nv3041_lcd_init_cmd_t) :
    ∀ (p : nv3041_panel_t) (w : World), w.sent ≤ (init_cmds_loop env tbl p w).2.2.sent := by
  induction tbl with
  | nil => intro p w; exact le_refl _
  | cons c rest ih =>
    intro p w
    cases hu : init_shadow_update c p with
    | none => rw [loop_cons_undefined env c rest p w hu]
    | some p1 =>
      by_cases hr : env.tx_result w.sent = ESP_OK
      · rw [loop_cons_ok env c rest p p1 w hu hr]
        have h := ih p1 { trace := w.trace ++ [Event.tx_param c.cmd c.data c.data_bytes,
            Event.vTaskDelay c.delay_ms], sent := w.sent + 1 }
        simp only at h
        omega
      · rw [loop_cons_fail env c rest p p1 w hu hr]
        exact Nat.le_succ _

theorem loop_frame (env : Env) (tbl : List nv3041_lcd_init_cmd_t) :
    ∀ (p : nv3041_panel_t) (w : World),
      (init_cmds_loop env tbl p w).2.1 =
        { p with madctl_val := (init_cmds_loop env tbl p w).2.1.madctl_val,
                 colmod_val := (init_cmds_loop env tbl p w).2.1.colmod_val } := by
  induction tbl with
  | nil => intro p w; rfl
  | cons c rest ih =>
    intro p w
    cases hu : init_shadow_update c p with
    | none => rw [loop_cons_undefined env c rest p w hu]
    | some p1 =>
      have hf := init_shadow_update_frame c p p1 hu
      by_cases hr : env.tx_result w.sent = ESP_OK
      · rw [loop_cons_ok env c rest p p1 w hu hr]
        have h := ih p1 { trace := w.trace ++ [Event.tx_param c.cmd c.data c.data_bytes,
            Event.vTaskDelay c.delay_ms], sent := w.sent + 1 }
        rw [h, hf]
      · rw [loop_cons_fail env c rest p p1 w hu hr]
        exact hf

theorem loop_all_ok (env : Env) (tbl : List nv3041_lcd_init_cmd_t) :
    ∀ (p : nv3041_panel_t) (w : World), table_ok tbl →
      (∀ i, i < tbl.length → env.tx_result (w.sent + i) = ESP_OK) →
      (init_cmds_loop env tbl p w).1 = Outcome.ret ESP_OK ∧
      (init_cmds_loop env tbl p w).2.2 =
        { trace := w.trace ++ steps_events (table_steps tbl), sent := w.sent + tbl.length } := by
  induction tbl with
  | nil => intro p w _ _; simp [init_cmds_loop, steps_events, table_steps]
  | cons c rest ih =>
    intro p w hok hio
    obtain ⟨hc, hrest⟩ := table_ok_cons c rest hok
    obtain ⟨p1, hu⟩ := init_shadow_update_defined c p hc
    have hr : env.tx_result w.sent = ESP_OK := by simpa using hio 0 (by simp)
    rw [loop_cons_ok env c rest p p1 w hu hr]
    have h := ih p1 { trace := w.trace ++ [Event.tx_param c.cmd c.data c.data_bytes,
        Event.vTaskDelay c.delay_ms], sent := w.sent + 1 } hrest (by
      intro i hi
      have := hio (i + 1) (by simpa using hi)
      simpa [Nat.add_assoc, Nat.add_comm 1 i] using this)
    refine ⟨h.1, ?_⟩
    rw [h.2]
    simp [steps_events, table_steps, InitStep.events, Nat.add_assoc, Nat.add_comm 1]

theorem loop_first_failure (env : Env) (tbl : List nv3041_lcd_init_cmd_t) :
    ∀ (p : nv3041_panel_t) (w : World) (k : Nat) (hk : k < tbl.length), table_ok tbl →
      (∀ i, i < k → env.tx_result (w.sent + i) = ESP_OK) →
      env.tx_result (w.sent + k) ≠ ESP_OK →
      (init_cmds_loop env tbl p w).1 = Outcome.ret (env.tx_result (w.sent + k)) ∧
      (init_cmds_loop env tbl p w).2.2 =
        { trace := w.trace ++ steps_events (table_steps (tbl.take k)) ++
            [((table_steps tbl).get ⟨k, by simpa [table_steps] using hk⟩).tx],
          sent := w.sent + k + 1 } := by
  induction tbl with
  | nil => intro p w k hk; exact absurd hk (Nat.not_lt_zero _)
  | cons c rest ih =>
    intro p w k hk hok hio hfail
    obtain ⟨hc, hrest⟩ := table_ok_cons c rest hok
    obtain ⟨p1, hu⟩ := init_shadow_update_defined c p hc
    cases k with
    | zero =>
      have hr : env.tx_result w.sent ≠ ESP_OK := by simpa using hfail
      rw [loop_cons_fail env c rest p p1 w hu hr]
      simp [steps_events, table_steps]
    | succ k =>
      have hr : env.tx_result w.sent = ESP_OK := by simpa using hio 0 (Nat.succ_pos _)
      rw [loop_cons_ok env c rest p p1 w hu hr]
      have hk' : k < rest.length := by simpa using hk
      have h := ih p1 { trace := w.trace ++ [Event.tx_param c.cmd c.data c.data_bytes,
          Event.vTaskDelay c.delay_ms], sent := w.sent + 1 } k hk' hrest (by
        intro i hi
        have := hio (i + 1) (by omega)
        simpa [Nat.add_assoc, Nat.add_comm 1 i] using this) (by
        simpa [Nat.add_assoc, Nat.add_comm 1 k] using hfail)
      have e : w.sent + 1 + k = w.sent + (k + 1) := by omega
      simp only [e] at h
      refine ⟨h.1, ?_⟩
      rw [h.2]
      simp [steps_events, table_steps, InitStep.events, Nat.add_assoc]

theorem shadow_tracks_nil (cmd : Int) (v : Nat) : shadow_tracks cmd [] v v := by
  simp [shadow_tracks, last_entry]

theorem shadow_tracks_cons (cmd : Int) (c : nv3041_lcd_init_cmd_t)
    (tbl : List nv3041_lcd_init_cmd_t) (v0 v1 v : Nat)
    (hc : if c.cmd = cmd then c.data.head? = some v1 else v1 = v0)
    (h : shadow_tracks cmd tbl v1 v) : shadow_tracks cmd (c :: tbl) v0 v := by
  unfold shadow_tracks at h ⊢
  rw [last_entry_cons]
  cases hl : last_entry cmd tbl with
  | some e => simpa [hl] using h
  | none =>
    rw [hl] at h
    simp only at h
    subst h
    by_cases hcc : c.cmd = cmd
    · simpa [hcc] using hc
    · simpa [hcc] using hc

theorem last_entry_none (cmd : Int) (tbl : List nv3041_lcd_init_cmd_t)
    (h : ∀ d ∈ tbl, d.cmd ≠ cmd) : last_entry cmd tbl = none := by
  unfold last_entry
  rw [List.find?_eq_none]
  intro d hd
  have := h d (List.mem_reverse.mp hd)
  simpa using this

theorem shadow_tracks_none (cmd : Int) (tbl : List nv3041_lcd_init_cmd_t) (v0 v : Nat)
    (hn : ∀ d ∈ tbl, d.cmd ≠ cmd) (h : shadow_tracks cmd tbl v0 v) : v = v0 := by
  unfold shadow_tracks at h
  rw [last_entry_none cmd tbl hn] at h
  exact h

theorem table_in_use_active (p : nv3041_panel_t) (tbl : List nv3041_lcd_init_cmd_t)
    (h : table_in_use p tbl) : active_init_cmds p = tbl := by
  rcases h with h | ⟨h, rfl⟩ <;> simp [active_init_cmds, h]

theorem shadow_tracks_last (cmd : Int) (l1 l2 : List nv3041_lcd_init_cmd_t)
    (c : nv3041_lcd_init_cmd_t) (v0 v : Nat) (hc : c.cmd = cmd) (hl2 : ∀ d ∈ l2, d.cmd ≠ cmd)
    (h : shadow_tracks cmd (l1 ++ c :: l2) v0 v) : c.data.head? = some v := by
  unfold shadow_tracks at h
  rw [last_entry_split cmd l1 l2 c hc hl2] at h
  exact h

/-- After the loop, whatever its outcome, each shadow byte is the first data
byte of the last entry for its register among the `n` entries handed to the
bus, or unchanged if there is none. -/
theorem loop_shadow (env : Env) (tbl : List nv3041_lcd_init_cmd_t) :
    ∀ (p : nv3041_panel_t) (w : World) (n : Nat),
      (init_cmds_loop env tbl p w).2.2.sent = w.sent + n →
      shadow_tracks LCD_CMD_MADCTL (tbl.take n) p.madctl_val
        (init_cmds_loop env tbl p w).2.1.madctl_val ∧
      shadow_tracks LCD_CMD_COLMOD (tbl.take n) p.colmod_val
        (init_cmds_loop env tbl p w).2.1.colmod_val := by
  induction tbl with
  | nil =>
    intro p w n _
    simp only [List.take_nil, init_cmds_loop]
    exact ⟨shadow_tracks_nil _ _, shadow_tracks_nil _ _⟩
  | cons c rest ih =>
    intro p w n hn
    cases hu : init_shadow_update c p with
    | none =>
      rw [loop_cons_undefined env c rest p w hu] at hn ⊢
      have : n = 0 := by simp only at hn; omega
      subst this
      simp only [List.take_zero]
      exact ⟨shadow_tracks_nil _ _, shadow_tracks_nil _ _⟩
    | some p1 =>
      have hm := init_shadow_update_madctl c p p1 hu
      have hcm := init_shadow_update_colmod c p p1 hu
      by_cases hr : env.tx_result w.sent = ESP_OK
      · rw [loop_cons_ok env c rest p p1 w hu hr] at hn ⊢
        have hmono := loop_mono env rest p1
          { trace := w.trace ++ [Event.tx_param c.cmd c.data c.data_bytes,
              Event.vTaskDelay c.delay_ms], sent := w.sent + 1 }
        simp only at hmono
        obtain ⟨n', rfl⟩ : ∃ n', n = n' + 1 := ⟨n - 1, by omega⟩
        have h := ih p1 { trace := w.trace ++ [Event.tx_param c.cmd c.data c.data_bytes,
            Event.vTaskDelay c.delay_ms], sent := w.sent + 1 } n' (by simp only; omega)
        rw [List.take_succ_cons]
        exact ⟨shadow_tracks_cons _ c _ _ _ _ hm h.1, shadow_tracks_cons _ c _ _ _ _ hcm h.2⟩
      · rw [loop_cons_fail env c rest p p1 w hu hr] at hn ⊢
        have : n = 1 := by simp only at hn; omega
        subst this
        simp only [List.take_succ_cons, List.take_zero]
        exact ⟨shadow_tracks_cons _ c _ _ _ _ hm (shadow_tracks_nil _ _),
          shadow_tracks_cons _ c _ _ _ _ hcm (shadow_tracks_nil _ _)⟩

theorem loop_ok_sent (env : Env) (tbl : List nv3041_lcd_init_cmd_t) :
    ∀ (p : nv3041_panel_t) (w : World),
      (init_cmds_loop env tbl p w).1 = Outcome.ret ESP_OK →
      (init_cmds_loop env tbl p w).2.2.sent = w.sent + tbl.length := by
  induction tbl with
  | nil => intro p w _; rfl
  | cons c rest ih =>
    intro p w h
    cases hu : init_shadow_update c p with
    | none =>
      rw [loop_cons_undefined env c rest p w hu] at h
      exact absurd h (by simp)
    | some p1 =>
      by_cases hr : env.tx_result w.sent = ESP_OK
      · rw [loop_cons_ok env c rest p p1 w hu hr] at h ⊢
        rw [ih p1 _ h]
        simp only [List.length_cons]
        omega
      · rw [loop_cons_fail env c rest p p1 w hu hr] at h
        simp only [Outcome.ret.injEq] at h
        exact absurd h hr

/-! ### Initialisation: the whole call -/

theorem init_eq_loop (env : Env) (p : nv3041_panel_t) (w : World)
    (h0 : env.tx_result w.sent = ESP_OK) (h1 : env.tx_result (w.sent + 1) = ESP_OK)
    (h2 : env.tx_result (w.sent + 2) = ESP_OK) :
    panel_nv3041_init env p w =
      init_cmds_loop env (active_init_cmds p) p
        { trace := w.trace ++ [Event.tx_param LCD_CMD_SLPOUT [] 0, Event.vTaskDelay 100,
            Event.tx_param LCD_CMD_MADCTL [p.madctl_val] 1,
            Event.tx_param LCD_CMD_COLMOD [p.colmod_val] 1],
          sent := w.sent + 3 } := by
  simp [panel_nv3041_init, esp_lcd_panel_io_tx_param, vTaskDelay, World.log, h0, h1, h2]

theorem init_fail_0 (env : Env) (p : nv3041_panel_t) (w : World)
    (h0 : env.tx_result w.sent ≠ ESP_OK) :
    panel_nv3041_init env p w =
      (Outcome.ret (env.tx_result w.sent), p,
        { trace := w.trace ++ [Event.tx_param LCD_CMD_SLPOUT [] 0], sent := w.sent + 1 }) := by
  simp [panel_nv3041_init, esp_lcd_panel_io_tx_param, h0]

theorem init_fail_1 (env : Env) (p : nv3041_panel_t) (w : World)
    (h0 : env.tx_result w.sent = ESP_OK) (h1 : env.tx_result (w.sent + 1) ≠ ESP_OK) :
    panel_nv3041_init env p w =
      (Outcome.ret (env.tx_result (w.sent + 1)), p,
        { trace := w.trace ++ [Event.tx_param LCD_CMD_SLPOUT [] 0, Event.vTaskDelay 100,
            Event.tx_param LCD_CMD_MADCTL [p.madctl_val] 1],
          sent := w.sent + 2 }) := by
  simp [panel_nv3041_init, esp_lcd_panel_io_tx_param, vTaskDelay, World.log, h0, h1]

theorem init_fail_2 (env : Env) (p : nv3041_panel_t) (w : World)
    (h0 : env.tx_result w.sent = ESP_OK) (h1 : env.tx_result (w.sent + 1) = ESP_OK)
    (h2 : env.tx_result (w.sent + 2) ≠ ESP_OK) :
    panel_nv3041_init env p w =
      (Outcome.ret (env.tx_result (w.sent + 2)), p,
        { trace := w.trace ++ [Event.tx_param LCD_CMD_SLPOUT [] 0, Event.vTaskDelay 100,
            Event.tx_param LCD_CMD_MADCTL [p.madctl_val] 1,
            Event.tx_param LCD_CMD_COLMOD [p.colmod_val] 1],
          sent := w.sent + 3 }) := by
  simp [panel_nv3041_init, esp_lcd_panel_io_tx_param, vTaskDelay, World.log, h0, h1, h2]

theorem init_ok_loop (env : Env) (p : nv3041_panel_t) (w : World)
    (hret : (panel_nv3041_init env p w).1 = Outcome.ret ESP_OK) :
    panel_nv3041_init env p w =
      init_cmds_loop env (active_init_cmds p) p
        { trace := w.trace ++ [Event.tx_param LCD_CMD_SLPOUT [] 0, Event.vTaskDelay 100,
            Event.tx_param LCD_CMD_MADCTL [p.madctl_val] 1,
            Event.tx_param LCD_CMD_COLMOD [p.colmod_val] 1],
          sent := w.sent + 3 } := by
  by_cases h0 : env.tx_result w.sent = ESP_OK
  · by_cases h1 : env.tx_result (w.sent + 1) = ESP_OK
    · by_cases h2 : env.tx_result (w.sent + 2) = ESP_OK
      · exact init_eq_loop env p w h0 h1 h2
      · rw [init_fail_2 env p w h0 h1 h2] at hret
        simp only [Outcome.ret.injEq] at hret
        exact absurd hret h2
    · rw [init_fail_1 env p w h0 h1] at hret
      simp only [Outcome.ret.injEq] at hret
      exact absurd hret h1
  · rw [init_fail_0 env p w h0] at hret
    simp only [Outcome.ret.injEq] at hret
    exact absurd hret h0

theorem init_ok_shadow (env : Env) (p : nv3041_panel_t) (w : World)
    (hret : (panel_nv3041_init env p w).1 = Outcome.ret ESP_OK) :
    shadow_tracks LCD_CMD_MADCTL (active_init_cmds p) p.madctl_val
      (panel_nv3041_init env p w).2.1.madctl_val ∧
    shadow_tracks LCD_CMD_COLMOD (active_init_cmds p) p.colmod_val
      (panel_nv3041_init env p w).2.1.colmod_val := by
  have he := init_ok_loop env p w hret
  rw [he] at hret ⊢
  have hs := loop_ok_sent env _ p _ hret
  have h := loop_shadow env (active_init_cmds p) p _ (active_init_cmds p).length hs
  simpa using h

theorem init_frame (env : Env) (p : nv3041_panel_t) (w : World) :
    (panel_nv3041_init env p w).2.1 =
      { p with madctl_val := (panel_nv3041_init env p w).2.1.madctl_val,
               colmod_val := (panel_nv3041_init env p w).2.1.colmod_val } := by
  by_cases h0 : env.tx_result w.sent = ESP_OK
  · by_cases h1 : env.tx_result (w.sent + 1) = ESP_OK
    · by_cases h2 : env.tx_result (w.sent + 2) = ESP_OK
      · rw [init_eq_loop env p w h0 h1 h2]
        exact loop_frame env _ p _
      · rw [init_fail_2 env p w h0 h1 h2]
    · rw [init_fail_1 env p w h0 h1]
  · rw [init_fail_0 env p w h0]

/-! ### Initialisation with the built-in table -/

theorem default_table_ok : table_ok vendor_specific_init_default := by
  unfold table_ok
  decide

theorem default_last_madctl :
    last_entry LCD_CMD_MADCTL vendor_specific_init_default = some ⟨0x36, [0xc0], 1, 0⟩ := by
  decide

theorem default_last_colmod :
    last_entry LCD_CMD_COLMOD vendor_specific_init_default = some ⟨0x3a, [0x01], 1, 0⟩ := by
  decide

theorem init_default_state (env : Env) (p : nv3041_panel_t) (w : World)
    (hnone : p.init_cmds = none)
    (hret : (panel_nv3041_init env p w).1 = Outcome.ret ESP_OK) :
    (panel_nv3041_init env p w).2.1 = { p with madctl_val := 0xC0, colmod_val := 0x01 } := by
  have hact : active_init_cmds p = vendor_specific_init_default := by
    simp [active_init_cmds, hnone]
  have hs := init_ok_shadow env p w hret
  rw [hact] at hs
  unfold shadow_tracks at hs
  rw [default_last_madctl, default_last_colmod] at hs
  have hf := init_frame env p w
  have hm : (panel_nv3041_init env p w).2.1.madctl_val = 0xC0 := by
    have := hs.1; simp at this; exact this.symm
  have hc : (panel_nv3041_init env p w).2.1.colmod_val = 0x01 := by
    have := hs.2; simp at this; exact this.symm
  rw [hf, hm, hc]

theorem init_default_returns (env : Env) (p : nv3041_panel_t) (w : World)
    (hnone : p.init_cmds = none)
    (hio : ∀ i, i < 59 → env.tx_result (w.sent + i) = ESP_OK) :
    (panel_nv3041_init env p w).1 = Outcome.ret ESP_OK ∧
    (panel_nv3041_init env p w).2.2 =
      { trace := w.trace ++ steps_events (init_steps p vendor_specific_init_default),
        sent := w.sent + 59 } := by
  have hact : active_init_cmds p = vendor_specific_init_default := by
    simp [active_init_cmds, hnone]
  have h0 : env.tx_result w.sent = ESP_OK := by simpa using hio 0 (by omega)
  have h1 := hio 1 (by omega)
  have h2 := hio 2 (by omega)
  have hlen : vendor_specific_init_default.length = 56 := by decide
  rw [init_eq_loop env p w h0 h1 h2, hact]
  have h := loop_all_ok env vendor_specific_init_default p
    { trace := w.trace ++ [Event.tx_param LCD_CMD_SLPOUT [] 0, Event.vTaskDelay 100,
        Event.tx_param LCD_CMD_MADCTL [p.madctl_val] 1,
        Event.tx_param LCD_CMD_COLMOD [p.colmod_val] 1],
      sent := w.sent + 3 } default_table_ok (by
      intro i hi
      have := hio (i + 3) (by omega)
      simpa [Nat.add_assoc, Nat.add_comm 3 i] using this)
  refine ⟨h.1, ?_⟩
  rw [h.2, hlen]
  simp [init_steps, steps_events, InitStep.events, Nat.add_assoc]

/-! ### The frame-buffer depth of a panel state -/

theorem panel_state_fb_bits (p : nv3041_panel_t) (h : panel_state p) :
    p.fb_bits_per_pixel = 16 ∨ p.fb_bits_per_pixel = 24 := by
  induction h with
  | new env w w1 io ret_panel cfg code p h => exact new_panel_fb_bits env w w1 io ret_panel cfg code p h
  | reset env p w _ ih =>
    have : (panel_nv3041_reset env p w).2.1 = p := by
      simp only [panel_nv3041_reset]; split_ifs <;> rfl
    rw [this]; exact ih
  | init env p w _ ih =>
    rw [init_frame env p w]; exact ih
  | draw_bitmap env p w x_start y_start x_end y_end color_data _ ih =>
    have : (panel_nv3041_draw_bitmap env p w x_start y_start x_end y_end color_data).2.1 = p := by
      simp only [panel_nv3041_draw_bitmap]; split_ifs <;> rfl
    rw [this]; exact ih
  | invert_color env p w b _ ih =>
    have : (panel_nv3041_invert_color env p w b).2.1 = p := by
      simp only [panel_nv3041_invert_color]; split_ifs <;> rfl
    rw [this]; exact ih
  | mirror env p w mx my _ ih =>
    have : (panel_nv3041_mirror env p w mx my).2.1.fb_bits_per_pixel = p.fb_bits_per_pixel := by
      simp only [panel_nv3041_mirror]; split_ifs <;> rfl
    rw [this]; exact ih
  | swap_xy env p w s _ ih =>
    have : (panel_nv3041_swap_xy env p w s).2.1.fb_bits_per_pixel = p.fb_bits_per_pixel := by
      simp only [panel_nv3041_swap_xy]; split_ifs <;> rfl
    rw [this]; exact ih
  | set_gap p w x_gap y_gap _ ih => exact ih
  | disp_on_off env p w v b _ ih =>
    have : (panel_nv3041_disp_on_off env p w v b).2.1 = p := by
      simp only [panel_nv3041_disp_on_off]; split_ifs <;> rfl
    rw [this]; exact ih

/-! ## Main results -/

/-- C1, as stated, fails. The panel is the one constructed for 18 bits per
pixel (3 bytes per pixel, gaps 0) and the window is 0..10000 x 0..10000 on a
bus that accepts every call.  The three transmissions are made and CASET and
RASET carry the bytes of 0 and 9999, but the `int` product
`10000 * 10000 * 24` does not fit in 32 bits: the length handed to the RAMWR
transfer is 4058096384, not `10000 * 10000 * 3 = 300000000`. -/
theorem draw_bitmap_length_wraps :
    panel_state (new_panel_result config_bgr18) ∧
    (new_panel_result config_bgr18).fb_bits_per_pixel / 8 = 3 ∧
    (∀ n, n < 3 → env_ok.tx_result (world0.sent + n) = ESP_OK) ∧
    panel_nv3041_draw_bitmap env_ok (new_panel_result config_bgr18) world0 0 0 10000 10000 [] =
      (Outcome.ret ESP_OK, new_panel_result config_bgr18,
        { trace := [Event.tx_param LCD_CMD_CASET [0, 0, 39, 15] 4,
            Event.tx_param LCD_CMD_RASET [0, 0, 39, 15] 4,
            Event.tx_color LCD_CMD_RAMWR [] 4058096384],
          sent := 3 }) ∧
    (4058096384 : Nat) ≠ (((10000 : Int) - 0) * (10000 - 0) *
      (((new_panel_result config_bgr18).fb_bits_per_pixel / 8 : Nat) : Int)).toNat := by
  have hnew : esp_lcd_new_panel_nv3041 env_ok world0 true (some config_bgr18) true =
      (ESP_OK, some (new_panel_result config_bgr18),
        { trace := [Event.gpio_config 32], sent := 0 }) := by decide
  refine ⟨panel_state.new _ _ _ _ _ _ _ _ hnew, by decide, fun _ _ => rfl, ?_, by decide⟩
  rw [draw_bitmap_trace env_ok _ world0 0 0 10000 10000 [] (by decide) (by decide)
    (fun _ _ => rfl)]
  simp [hi, lo, int_land_255, Int.shiftRight_eq_div_pow, new_panel_result, config_bgr18, world0,
    wrap_int, to_size_t]
  decide

/-- C1, amended. For every panel state (any state reached from the
constructor through the driver's operations, so with any gaps) and every draw
request with `x_start < x_end` and `y_start < y_end`, when the three transport
calls succeed, `panel_nv3041_draw_bitmap` returns `ESP_OK`, leaves the panel
unchanged and makes exactly three platform calls, in this order: CASET with
the four bytes `hi xs, lo xs, hi (xe - 1), lo (xe - 1)`, RASET with the same
for y, and one RAMWR colour transfer, where `xs = x_start + x_gap`,
`xe = x_end + x_gap` and likewise for y.  If the number of bits of the window,
`(x_end - x_start) * (y_end - y_start) * fb_bits_per_pixel`, does not exceed
the largest `int`, 2147483647, the length of the colour transfer is
`(x_end - x_start) * (y_end - y_start) * (fb_bits_per_pixel / 8)` bytes, which
does not mention the gaps.  `hi v` and `lo v` are the two bytes of the
big-endian 16-bit encoding of `v`. -/
theorem draw_bitmap_transmits (env : Env) (p : nv3041_panel_t) (w : World)
    (x_start y_start x_end y_end : Int) (color_data : List Nat)
    (hp : panel_state p)
    (hx : x_start < x_end) (hy : y_start < y_end)
    (hio : ∀ n, n < 3 → env.tx_result (w.sent + n) = ESP_OK) :
    (∃ len : Nat,
      panel_nv3041_draw_bitmap env p w x_start y_start x_end y_end color_data =
        (Outcome.ret ESP_OK, p,
          { trace := w.trace ++
              [Event.tx_param LCD_CMD_CASET
                 [hi (x_start + p.x_gap), lo (x_start + p.x_gap),
                  hi (x_end + p.x_gap - 1), lo (x_end + p.x_gap - 1)] 4,
               Event.tx_param LCD_CMD_RASET
                 [hi (y_start + p.y_gap), lo (y_start + p.y_gap),
                  hi (y_end + p.y_gap - 1), lo (y_end + p.y_gap - 1)] 4,
               Event.tx_color LCD_CMD_RAMWR color_data len],
            sent := w.sent + 3 }))
    ∧ ((x_end - x_start) * (y_end - y_start) * (p.fb_bits_per_pixel : Int) ≤ 2147483647 →
      panel_nv3041_draw_bitmap env p w x_start y_start x_end y_end color_data =
        (Outcome.ret ESP_OK, p,
          { trace := w.trace ++
              [Event.tx_param LCD_CMD_CASET
                 [hi (x_start + p.x_gap), lo (x_start + p.x_gap),
                  hi (x_end + p.x_gap - 1), lo (x_end + p.x_gap - 1)] 4,
               Event.tx_param LCD_CMD_RASET
                 [hi (y_start + p.y_gap), lo (y_start + p.y_gap),
                  hi (y_end + p.y_gap - 1), lo (y_end + p.y_gap - 1)] 4,
               Event.tx_color LCD_CMD_RAMWR color_data
                 ((x_end - x_start) * (y_end - y_start) *
                   ((p.fb_bits_per_pixel / 8 : Nat) : Int)).toNat],
            sent := w.sent + 3 }))
    ∧ ∀ v : Int, hi v < 256 ∧ lo v < 256 ∧ ((hi v * 256 + lo v : Nat) : Int) = v % 65536 :=
  ⟨⟨_, draw_bitmap_trace env p w x_start y_start x_end y_end color_data hx hy hio⟩,
    fun hrange => draw_bitmap_ok env p w x_start y_start x_end y_end color_data hx hy
      (panel_state_fb_bits p hp) hrange hio,
    hi_lo_big_endian⟩

/-- Witness of the amended C1: on the panel constructed for 18 bits per pixel,
moved by the gaps (2, 1), the window 0..480 x 0..272 has 3133440 bits and is
sent as CASET 2..481, RASET 1..272 and 391680 bytes of pixels. -/
theorem draw_bitmap_transmits_witness :
    panel_state { new_panel_result config_bgr18 with x_gap := 2, y_gap := 1 } ∧
    (0 : Int) < 480 ∧ (0 : Int) < 272 ∧
    (∀ n, n < 3 → env_ok.tx_result (world0.sent + n) = ESP_OK) ∧
    ((480 : Int) - 0) * (272 - 0) *
      ((({ new_panel_result config_bgr18 with x_gap := 2, y_gap := 1 } :
        nv3041_panel_t).fb_bits_per_pixel : Nat) : Int) ≤ 2147483647 ∧
    panel_nv3041_draw_bitmap env_ok { new_panel_result config_bgr18 with x_gap := 2, y_gap := 1 }
        world0 0 0 480 272 [] =
      (Outcome.ret ESP_OK, { new_panel_result config_bgr18 with x_gap := 2, y_gap := 1 },
        { trace := [Event.tx_param LCD_CMD_CASET [0, 2, 1, 225] 4,
            Event.tx_param LCD_CMD_RASET [0, 1, 1, 16] 4,
            Event.tx_color LCD_CMD_RAMWR [] 391680],
          sent := 3 }) := by
  have hnew : esp_lcd_new_panel_nv3041 env_ok world0 true (some config_bgr18) true =
      (ESP_OK, some (new_panel_result config_bgr18),
        { trace := [Event.gpio_config 32], sent := 0 }) := by decide
  have hp : panel_state { new_panel_result config_bgr18 with x_gap := 2, y_gap := 1 } :=
    panel_state.set_gap _ world0 2 1 (panel_state.new _ _ _ _ _ _ _ _ hnew)
  have hr : ((480 : Int) - 0) * (272 - 0) *
      ((({ new_panel_result config_bgr18 with x_gap := 2, y_gap := 1 } :
        nv3041_panel_t).fb_bits_per_pixel : Nat) : Int) ≤ 2147483647 := by decide
  refine ⟨hp, by decide, by decide, fun _ _ => rfl, hr, ?_⟩
  rw [(draw_bitmap_transmits env_ok _ world0 0 0 480 272 [] hp (by decide) (by decide)
    (fun _ _ => rfl)).2.1 hr]
  simp [hi, lo, int_land_255, Int.shiftRight_eq_div_pow, new_panel_result, config_bgr18, world0]

/-- C2. On a platform where every transmission succeeds, for every panel
state and all booleans `mx`, `my`, `s`: `panel_nv3041_mirror` returns
`ESP_OK`, transmits one MADCTL command whose single payload byte is the new
shadow, and the new shadow carries `mx` in bit 6 (`LCD_CMD_MX_BIT`) and `my`
in bit 7 (`LCD_CMD_MY_BIT`) and agrees with the old one in the other six
bits; `panel_nv3041_swap_xy` does the same with `s` in bit 5
(`LCD_CMD_MV_BIT`); the two calls in either order end with the same shadow,
which carries `mx`, `my`, `s` and agrees with the initial byte in the other
five bits, the colour-order bit 3 (`LCD_CMD_BGR_BIT`) among them; and
mirror(true, false), swap(false), mirror(false, false), swap(true) ends with
mirror-X and mirror-Y clear, swap set and bit 3 as it was. -/
theorem mirror_swap_compose (env : Env) (p : nv3041_panel_t) (w : World) (mx my s : Bool)
    (hio : ∀ n, env.tx_result n = ESP_OK) :
    (LCD_CMD_MX_BIT = 2 ^ 6 ∧ LCD_CMD_MY_BIT = 2 ^ 7 ∧ LCD_CMD_MV_BIT = 2 ^ 5 ∧
      LCD_CMD_BGR_BIT = 2 ^ 3) ∧
    (∃ m, panel_nv3041_mirror env p w mx my =
        (Outcome.ret ESP_OK, { p with madctl_val := m },
          { trace := w.trace ++ [Event.tx_param LCD_CMD_MADCTL [m] 1], sent := w.sent + 1 }) ∧
      orientation_of m p.madctl_val mx my (p.madctl_val.testBit 5)) ∧
    (∃ m, panel_nv3041_swap_xy env p w s =
        (Outcome.ret ESP_OK, { p with madctl_val := m },
          { trace := w.trace ++ [Event.tx_param LCD_CMD_MADCTL [m] 1], sent := w.sent + 1 }) ∧
      orientation_of m p.madctl_val (p.madctl_val.testBit 6) (p.madctl_val.testBit 7) s) ∧
    (∃ m m1 m2,
      mirror_then_swap env p w mx my s =
        (Outcome.ret ESP_OK, { p with madctl_val := m },
          { trace := w.trace ++ [Event.tx_param LCD_CMD_MADCTL [m1] 1,
              Event.tx_param LCD_CMD_MADCTL [m] 1], sent := w.sent + 2 }) ∧
      swap_then_mirror env p w mx my s =
        (Outcome.ret ESP_OK, { p with madctl_val := m },
          { trace := w.trace ++ [Event.tx_param LCD_CMD_MADCTL [m2] 1,
              Event.tx_param LCD_CMD_MADCTL [m] 1], sent := w.sent + 2 }) ∧
      orientation_of m p.madctl_val mx my s) ∧
    (∃ m w2,
      (let r := mirror_then_swap env p w true false false
       mirror_then_swap env r.2.1 r.2.2 false false true) =
        (Outcome.ret ESP_OK, { p with madctl_val := m }, w2) ∧
      orientation_of m p.madctl_val false false true ∧
      m.testBit 3 = p.madctl_val.testBit 3) := by
  refine ⟨⟨rfl, rfl, rfl, rfl⟩, ?_, ?_, ?_, ?_⟩
  · exact ⟨_, mirror_eq env p w mx my (hio _), mirror_orientation _ _ _⟩
  · exact ⟨_, swap_xy_eq env p w s (hio _), swap_orientation _ _⟩
  · refine ⟨_, mirror_byte p.madctl_val mx my, swap_byte p.madctl_val s,
      mirror_then_swap_eq env p w mx my s hio, ?_, mirror_swap_orientation _ _ _ _⟩
    rw [swap_then_mirror_eq env p w mx my s hio, swap_mirror_comm]
  · simp only [mirror_then_swap_eq env p w true false false hio]
    rw [mirror_then_swap_eq _ _ _ _ _ _ hio]
    refine ⟨_, _, rfl, ?_, ?_⟩
    · obtain ⟨h0, h6, h7, h5, hrest⟩ := mirror_swap_orientation
        (swap_byte (mirror_byte p.madctl_val true false) false) false false true
      refine ⟨h0, h6, h7, h5, ?_⟩
      intro i hi h5 h6 h7
      rw [hrest i hi h5 h6 h7, mirror_swap_bits _ _ _ _ i hi]
      simp [h5, h6, h7]
    · rw [mirror_swap_bits _ _ _ _ 3 (by norm_num), mirror_swap_bits _ _ _ _ 3 (by norm_num)]
      simp

/-- Witness of C2: mirror-X and axis swap requested on a panel whose shadow
holds only the BGR bit, on a platform where every call succeeds. -/
theorem mirror_swap_compose_witness :
    (∀ n, env_ok.tx_result n = ESP_OK) ∧
    ∃ m m1 m2,
      mirror_then_swap env_ok panel_bgr world0 true false true =
        (Outcome.ret ESP_OK, { panel_bgr with madctl_val := m },
          { trace := world0.trace ++ [Event.tx_param LCD_CMD_MADCTL [m1] 1,
              Event.tx_param LCD_CMD_MADCTL [m] 1], sent := world0.sent + 2 }) ∧
      swap_then_mirror env_ok panel_bgr world0 true false true =
        (Outcome.ret ESP_OK, { panel_bgr with madctl_val := m },
          { trace := world0.trace ++ [Event.tx_param LCD_CMD_MADCTL [m2] 1,
              Event.tx_param LCD_CMD_MADCTL [m] 1], sent := world0.sent + 2 }) ∧
      orientation_of m panel_bgr.madctl_val true false true :=
  ⟨fun _ => rfl,
    (mirror_swap_compose env_ok panel_bgr world0 true false true (fun _ => rfl)).2.2.2.1⟩

/-- C3. For every caller-supplied init table and every transport behaviour,
when `panel_nv3041_init` returns `ESP_OK`: if `c` is the last entry of the
table whose opcode is MADCTL (`0x36`), the shadow `madctl_val` is the first
data byte of `c`, whatever the value on entry was; likewise `colmod_val` for
COLMOD (`0x3A`); and a following `panel_nv3041_set_gap` with any gaps returns
`ESP_OK`, changes only `x_gap` and `y_gap`, and makes no platform call. -/
theorem init_table_overrides (env : Env) (p : nv3041_panel_t) (w : World)
    (tbl : List nv3041_lcd_init_cmd_t) (htbl : p.init_cmds = some tbl)
    (hret : (panel_nv3041_init env p w).1 = Outcome.ret ESP_OK) :
    (∀ l1 c l2, tbl = l1 ++ c :: l2 → c.cmd = LCD_CMD_MADCTL →
      (∀ d ∈ l2, d.cmd ≠ LCD_CMD_MADCTL) →
      c.data.head? = some (panel_nv3041_init env p w).2.1.madctl_val) ∧
    (∀ l1 c l2, tbl = l1 ++ c :: l2 → c.cmd = LCD_CMD_COLMOD →
      (∀ d ∈ l2, d.cmd ≠ LCD_CMD_COLMOD) →
      c.data.head? = some (panel_nv3041_init env p w).2.1.colmod_val) ∧
    (∀ x_gap y_gap : Int,
      panel_nv3041_set_gap (panel_nv3041_init env p w).2.1 (panel_nv3041_init env p w).2.2
          x_gap y_gap =
        (Outcome.ret ESP_OK,
          { (panel_nv3041_init env p w).2.1 with x_gap := x_gap, y_gap := y_gap },
          (panel_nv3041_init env p w).2.2)) := by
  have hact : active_init_cmds p = tbl := by simp [active_init_cmds, htbl]
  have hs := init_ok_shadow env p w hret
  rw [hact] at hs
  refine ⟨?_, ?_, fun _ _ => rfl⟩
  · intro l1 c l2 hsplit hc hl2
    subst hsplit
    exact shadow_tracks_last _ l1 l2 c _ _ hc hl2 hs.1
  · intro l1 c l2 hsplit hc hl2
    subst hsplit
    exact shadow_tracks_last _ l1 l2 c _ _ hc hl2 hs.2

/-- Witness of C3: a one-entry table that sets MADCTL to `0xC0`, on a panel
constructed with `madctl_val = 0x08`. -/
theorem init_table_overrides_witness :
    panel_bgr.init_cmds = some table_madctl ∧
    (panel_nv3041_init env_ok panel_bgr world0).1 = Outcome.ret ESP_OK ∧
    (panel_nv3041_init env_ok panel_bgr world0).2.1.madctl_val = 0xC0 :=
  ⟨rfl, by decide,
    (Option.some.inj
      ((init_table_overrides env_ok panel_bgr world0 table_madctl rfl (by decide)).1
        [] ⟨0x36, [0xC0], 1, 0⟩ [] rfl rfl (fun _ hd => absurd hd (List.not_mem_nil _)))).symm⟩

/-- C4. Let `tbl` be the table in use for the panel state `p`: the caller's
table if `init_cmds` is non-null, the built-in table
`vendor_specific_init_default` otherwise; its MADCTL and COLMOD entries are
to have a data byte to read.  For every transport behaviour
`panel_nv3041_init` works through the sequence `init_steps p tbl`: sleep-out
with no payload followed by 100 ms, MADCTL and COLMOD with the shadow bytes
held on entry, then every entry of `tbl` in table order with its own opcode,
data and byte count, followed by its `delay_ms`.  If every transmission
succeeds, the platform calls are exactly that sequence and the result is
`ESP_OK`.  If transmission number `k` (counted from 0) is the first to fail,
the platform calls are the first `k` steps with their delays and then the
transmission of step `k` alone, `k + 1` transmissions in all, and the result
is the error of that transmission. -/
theorem init_sequence (env : Env) (p : nv3041_panel_t) (w : World)
    (tbl : List nv3041_lcd_init_cmd_t)
    (hsel : table_in_use p tbl) (hok : table_ok tbl) :
    ((∀ i, i < (init_steps p tbl).length → env.tx_result (w.sent + i) = ESP_OK) →
      (panel_nv3041_init env p w).1 = Outcome.ret ESP_OK ∧
      (panel_nv3041_init env p w).2.2 =
        { trace := w.trace ++ steps_events (init_steps p tbl),
          sent := w.sent + (init_steps p tbl).length }) ∧
    (∀ (k : Nat) (hk : k < (init_steps p tbl).length),
      (∀ i, i < k → env.tx_result (w.sent + i) = ESP_OK) →
      env.tx_result (w.sent + k) ≠ ESP_OK →
      (panel_nv3041_init env p w).1 = Outcome.ret (env.tx_result (w.sent + k)) ∧
      (panel_nv3041_init env p w).2.2 =
        { trace := w.trace ++ steps_events ((init_steps p tbl).take k) ++
            [((init_steps p tbl).get ⟨k, hk⟩).tx],
          sent := w.sent + k + 1 }) := by
  have hact := table_in_use_active p tbl hsel
  have hlen : (init_steps p tbl).length = tbl.length + 3 := by
    simp [init_steps, table_steps]
  constructor
  · intro hio
    have h0 : env.tx_result w.sent = ESP_OK := by simpa using hio 0 (by omega)
    have h1 := hio 1 (by omega)
    have h2 := hio 2 (by omega)
    rw [init_eq_loop env p w h0 h1 h2, hact]
    have h := loop_all_ok env tbl p
      { trace := w.trace ++ [Event.tx_param LCD_CMD_SLPOUT [] 0, Event.vTaskDelay 100,
          Event.tx_param LCD_CMD_MADCTL [p.madctl_val] 1,
          Event.tx_param LCD_CMD_COLMOD [p.colmod_val] 1],
        sent := w.sent + 3 } hok (by
        intro i hi
        have := hio (i + 3) (by omega)
        simpa [Nat.add_assoc, Nat.add_comm 3 i] using this)
    refine ⟨h.1, ?_⟩
    rw [h.2, hlen]
    simp [init_steps, steps_events, InitStep.events, Nat.add_assoc, Nat.add_comm 3]
  · intro k hk hio hfail
    match k, hk, hio, hfail with
    | 0, hk, hio, hfail =>
      have h0 : env.tx_result w.sent ≠ ESP_OK := by simpa using hfail
      rw [init_fail_0 env p w h0]
      simp [init_steps, steps_events]
    | 1, hk, hio, hfail =>
      have h0 : env.tx_result w.sent = ESP_OK := by simpa using hio 0 (by omega)
      rw [init_fail_1 env p w h0 hfail]
      simp [init_steps, steps_events, InitStep.events]
    | 2, hk, hio, hfail =>
      have h0 : env.tx_result w.sent = ESP_OK := by simpa using hio 0 (by omega)
      have h1 := hio 1 (by omega)
      rw [init_fail_2 env p w h0 h1 hfail]
      simp [init_steps, steps_events, InitStep.events]
    | k + 3, hk, hio, hfail =>
      have h0 : env.tx_result w.sent = ESP_OK := by simpa using hio 0 (by omega)
      have h1 := hio 1 (by omega)
      have h2 := hio 2 (by omega)
      rw [init_eq_loop env p w h0 h1 h2, hact]
      have hk' : k < tbl.length := by omega
      have h := loop_first_failure env tbl p
        { trace := w.trace ++ [Event.tx_param LCD_CMD_SLPOUT [] 0, Event.vTaskDelay 100,
            Event.tx_param LCD_CMD_MADCTL [p.madctl_val] 1,
            Event.tx_param LCD_CMD_COLMOD [p.colmod_val] 1],
          sent := w.sent + 3 } k hk' hok (by
          intro i hi
          have := hio (i + 3) (by omega)
          simpa [Nat.add_assoc, Nat.add_comm 3 i] using this) (by
          simpa [Nat.add_assoc, Nat.add_comm 3 k] using hfail)
      have e : w.sent + 3 + k = w.sent + (k + 3) := by omega
      simp only [e] at h
      refine ⟨h.1, ?_⟩
      rw [h.2]
      have ht : table_steps (List.take k tbl) = List.take k (table_steps tbl) := by
        simp [table_steps, List.map_take]
      simp [init_steps, steps_events, InitStep.events, Nat.add_assoc, ht]

/-- Witness of C4.  On a panel that holds the caller's one-entry table
`table_madctl`, a bus that accepts everything is given the four transmissions
and the two delays, with the caller's entry last, and a bus that rejects
transmission 3 is given the same four transmissions, the last without its
delay, and its error is returned.  On the same panel without a table
(`init_cmds` null) a bus that accepts everything is given the three fixed
transmissions and then the 56 entries of the built-in table. -/
theorem init_sequence_witness :
    (table_in_use panel_bgr table_madctl ∧ table_ok table_madctl ∧
      (∀ i, i < (init_steps panel_bgr table_madctl).length →
        env_ok.tx_result (world0.sent + i) = ESP_OK) ∧
      (panel_nv3041_init env_ok panel_bgr world0).1 = Outcome.ret ESP_OK ∧
      (panel_nv3041_init env_ok panel_bgr world0).2.2 =
        { trace := [Event.tx_param LCD_CMD_SLPOUT [] 0, Event.vTaskDelay 100,
            Event.tx_param LCD_CMD_MADCTL [0x08] 1, Event.tx_param LCD_CMD_COLMOD [0x01] 1,
            Event.tx_param 0x36 [0xC0] 1, Event.vTaskDelay 0],
          sent := 4 }) ∧
    ((∀ i, i < 3 → env_fail_3.tx_result (world0.sent + i) = ESP_OK) ∧
      env_fail_3.tx_result (world0.sent + 3) ≠ ESP_OK ∧
      (panel_nv3041_init env_fail_3 panel_bgr world0).1 = Outcome.ret (-1) ∧
      (panel_nv3041_init env_fail_3 panel_bgr world0).2.2 =
        { trace := [Event.tx_param LCD_CMD_SLPOUT [] 0, Event.vTaskDelay 100,
            Event.tx_param LCD_CMD_MADCTL [0x08] 1, Event.tx_param LCD_CMD_COLMOD [0x01] 1,
            Event.tx_param 0x36 [0xC0] 1],
          sent := 4 }) ∧
    (table_in_use { panel_bgr with init_cmds := none } vendor_specific_init_default ∧
      table_ok vendor_specific_init_default ∧
      (∀ i, i < (init_steps { panel_bgr with init_cmds := none }
          vendor_specific_init_default).length →
        env_ok.tx_result (world0.sent + i) = ESP_OK) ∧
      (panel_nv3041_init env_ok { panel_bgr with init_cmds := none } world0).1 =
        Outcome.ret ESP_OK ∧
      (panel_nv3041_init env_ok { panel_bgr with init_cmds := none } world0).2.2 =
        { trace := world0.trace ++
            steps_events (init_steps { panel_bgr with init_cmds := none }
              vendor_specific_init_default),
          sent := world0.sent +
            (init_steps { panel_bgr with init_cmds := none }
              vendor_specific_init_default).length }) := by
  have hsel : table_in_use panel_bgr table_madctl := Or.inl rfl
  have hok : table_ok table_madctl := by unfold table_ok; decide
  have h1 : ∀ i, i < (init_steps panel_bgr table_madctl).length →
      env_ok.tx_result (world0.sent + i) = ESP_OK := fun _ _ => rfl
  have h2 : ∀ i, i < 3 → env_fail_3.tx_result (world0.sent + i) = ESP_OK := by decide
  have h3 : env_fail_3.tx_result (world0.sent + 3) ≠ ESP_OK := by decide
  have hsel0 : table_in_use { panel_bgr with init_cmds := none } vendor_specific_init_default :=
    Or.inr ⟨rfl, rfl⟩
  have hok0 : table_ok vendor_specific_init_default := by unfold table_ok; decide
  have h4 : ∀ i, i < (init_steps { panel_bgr with init_cmds := none }
      vendor_specific_init_default).length →
      env_ok.tx_result (world0.sent + i) = ESP_OK := fun _ _ => rfl
  have r1 := (init_sequence env_ok panel_bgr world0 table_madctl hsel hok).1 h1
  have r2 := (init_sequence env_fail_3 panel_bgr world0 table_madctl hsel hok).2 3
    (by decide) h2 h3
  exact ⟨⟨hsel, hok, h1, r1.1, r1.2.trans (by decide)⟩,
    ⟨h2, h3, r2.1.trans (by decide), r2.2.trans (by decide)⟩,
    ⟨hsel0, hok0, h4,
      (init_sequence env_ok _ world0 vendor_specific_init_default hsel0 hok0).1 h4⟩⟩

/-- C5. For every configuration with a supported colour order and pixel
width, handed over with valid pointers on a platform that provides the memory
and (if one is configured) the reset line, `esp_lcd_new_panel_nv3041`
returns `ESP_OK` and a panel whose gaps are 0; 18 bits per pixel give
`fb_bits_per_pixel = 24` (3 bytes per pixel) and colour-mode byte `0x00`,
12 and 16 give `fb_bits_per_pixel = 16` (2 bytes per pixel) and colour-mode
byte `0x01`; `madctl_val` is 0 for RGB order and exactly `LCD_CMD_BGR_BIT`
for BGR order. -/
theorem new_panel_pixel_format (env : Env) (w : World) (cfg : esp_lcd_panel_dev_config_t)
    (hmem : env.calloc_ok = true)
    (hgpio : 0 ≤ cfg.reset_gpio_num → env.gpio_config_result = ESP_OK)
    (horder : cfg.rgb_ele_order ≠ lcd_rgb_element_order_t.other)
    (hbpp : cfg.bits_per_pixel = 12 ∨ cfg.bits_per_pixel = 16 ∨ cfg.bits_per_pixel = 18) :
    ∃ p w1, esp_lcd_new_panel_nv3041 env w true (some cfg) true = (ESP_OK, some p, w1) ∧
      p.x_gap = 0 ∧ p.y_gap = 0 ∧
      (cfg.bits_per_pixel = 18 →
        p.fb_bits_per_pixel = 24 ∧ p.fb_bits_per_pixel / 8 = 3 ∧ p.colmod_val = 0x00) ∧
      (cfg.bits_per_pixel = 12 ∨ cfg.bits_per_pixel = 16 →
        p.fb_bits_per_pixel = 16 ∧ p.fb_bits_per_pixel / 8 = 2 ∧ p.colmod_val = 0x01) ∧
      (cfg.rgb_ele_order = lcd_rgb_element_order_t.RGB → p.madctl_val = 0) ∧
      (cfg.rgb_ele_order = lcd_rgb_element_order_t.BGR → p.madctl_val = LCD_CMD_BGR_BIT) := by
  refine ⟨new_panel_result cfg, _, new_panel_supported env w cfg hmem hgpio horder hbpp,
    rfl, rfl, ?_, ?_, ?_, ?_⟩
  · intro h; simp [new_panel_result, h]
  · intro h; rcases h with h | h <;> simp [new_panel_result, h]
  · intro h; simp [new_panel_result, h]
  · intro h; simp [new_panel_result, h]

/-- Witness of C5: BGR order and 18 bits per pixel with a reset line. -/
theorem new_panel_pixel_format_witness :
    env_ok.calloc_ok = true ∧
    (0 ≤ config_bgr18.reset_gpio_num → env_ok.gpio_config_result = ESP_OK) ∧
    config_bgr18.rgb_ele_order ≠ lcd_rgb_element_order_t.other ∧
    (config_bgr18.bits_per_pixel = 12 ∨ config_bgr18.bits_per_pixel = 16 ∨
      config_bgr18.bits_per_pixel = 18) ∧
    ∃ p w1, esp_lcd_new_panel_nv3041 env_ok world0 true (some config_bgr18) true =
        (ESP_OK, some p, w1) ∧
      p.x_gap = 0 ∧ p.y_gap = 0 ∧
      (config_bgr18.bits_per_pixel = 18 →
        p.fb_bits_per_pixel = 24 ∧ p.fb_bits_per_pixel / 8 = 3 ∧ p.colmod_val = 0x00) ∧
      (config_bgr18.bits_per_pixel = 12 ∨ config_bgr18.bits_per_pixel = 16 →
        p.fb_bits_per_pixel = 16 ∧ p.fb_bits_per_pixel / 8 = 2 ∧ p.colmod_val = 0x01) ∧
      (config_bgr18.rgb_ele_order = lcd_rgb_element_order_t.RGB → p.madctl_val = 0) ∧
      (config_bgr18.rgb_ele_order = lcd_rgb_element_order_t.BGR →
        p.madctl_val = LCD_CMD_BGR_BIT) :=
  ⟨rfl, fun _ => rfl, by decide, by decide,
    new_panel_pixel_format env_ok world0 config_bgr18 rfl (fun _ => rfl) (by decide)
      (by decide)⟩

/-- C6. For every configuration whose colour order is neither RGB nor BGR or
whose `bits_per_pixel` is not 12, 16 or 18, handed over with valid pointers on
a platform that provides the memory and (if one is configured) the reset
line, `esp_lcd_new_panel_nv3041` returns `ESP_ERR_NOT_SUPPORTED`, writes no
panel to `*ret_panel`, and its only platform calls are, when
`reset_gpio_num >= 0`, the `gpio_config` that claims the reset line followed
by the `gpio_reset_pin` that releases it.  Whatever its arguments and the
platform, the constructor makes no bus transmission. -/
theorem new_panel_not_supported (env : Env) (w : World) (cfg : esp_lcd_panel_dev_config_t)
    (hmem : env.calloc_ok = true)
    (hgpio : 0 ≤ cfg.reset_gpio_num → env.gpio_config_result = ESP_OK)
    (hcfg : cfg.rgb_ele_order = lcd_rgb_element_order_t.other ∨
      (cfg.bits_per_pixel ≠ 12 ∧ cfg.bits_per_pixel ≠ 16 ∧ cfg.bits_per_pixel ≠ 18)) :
    esp_lcd_new_panel_nv3041 env w true (some cfg) true =
      (ESP_ERR_NOT_SUPPORTED, none,
        { trace := w.trace ++
            (if 0 ≤ cfg.reset_gpio_num then
              [Event.gpio_config ((1 <<< cfg.reset_gpio_num.toNat) % 2 ^ 64),
               Event.gpio_reset_pin cfg.reset_gpio_num]
             else []),
          sent := w.sent }) ∧
    ∀ (env1 : Env) (w1 : World) (io ret_panel : Bool)
      (cfg1 : Option esp_lcd_panel_dev_config_t),
      (esp_lcd_new_panel_nv3041 env1 w1 io cfg1 ret_panel).2.2.sent = w1.sent := by
  refine ⟨?_, fun env1 w1 io ret_panel cfg1 => new_panel_sent env1 w1 io cfg1 ret_panel⟩
  rw [new_panel_unsupported env w cfg hmem hgpio hcfg]
  by_cases hline : 0 ≤ cfg.reset_gpio_num <;> simp [claim_events, release_events, hline]

/-- Witness of C6: 24 bits per pixel with a reset line on GPIO 5. -/
theorem new_panel_not_supported_witness :
    env_ok.calloc_ok = true ∧
    (0 ≤ config_bgr24.reset_gpio_num → env_ok.gpio_config_result = ESP_OK) ∧
    (config_bgr24.rgb_ele_order = lcd_rgb_element_order_t.other ∨
      (config_bgr24.bits_per_pixel ≠ 12 ∧ config_bgr24.bits_per_pixel ≠ 16 ∧
        config_bgr24.bits_per_pixel ≠ 18)) ∧
    esp_lcd_new_panel_nv3041 env_ok world0 true (some config_bgr24) true =
      (ESP_ERR_NOT_SUPPORTED, none,
        { trace := [Event.gpio_config 32, Event.gpio_reset_pin 5], sent := 0 }) :=
  ⟨rfl, fun _ => rfl, by decide,
    (new_panel_not_supported env_ok world0 config_bgr24 rfl (fun _ => rfl) (by decide)).1⟩

/-- C7, as stated, fails. The panel has no reset line and the bus rejects the
software-reset command: `panel_nv3041_reset` returns the error of the
transmission at once, and the one platform call it has made is that
transmission; no 120 ms delay follows it. -/
theorem reset_rejected_no_delay :
    panel_bgr.reset_gpio_num < 0 ∧
    env_fail_0.tx_result world0.sent ≠ ESP_OK ∧
    panel_nv3041_reset env_fail_0 panel_bgr world0 =
      (Outcome.ret (-1), panel_bgr,
        { trace := [Event.tx_param LCD_CMD_SWRESET [] 0], sent := 1 }) ∧
    Event.vTaskDelay 120 ∉ (panel_nv3041_reset env_fail_0 panel_bgr world0).2.2.trace := by
  decide

/-- C7, amended. `panel_nv3041_reset` on a panel without reset line
(`reset_gpio_num < 0`) makes one bus transmission, the software-reset command
with empty payload, and no GPIO call; when the bus accepts the command it
then waits 120 ms and returns `ESP_OK`; when the bus rejects it, the error is
returned at once and no delay is made.  On a panel with a reset line it makes
no bus transmission: it drives the line to `reset_level`, waits 120 ms, drives
it to the negation of `reset_level`, waits 120 ms and returns `ESP_OK`.  In
every case the panel state is returned unchanged. -/
theorem reset_calls (env : Env) (p : nv3041_panel_t) (w : World) :
    (p.reset_gpio_num < 0 → env.tx_result w.sent = ESP_OK →
      panel_nv3041_reset env p w =
        (Outcome.ret ESP_OK, p,
          { trace := w.trace ++ [Event.tx_param LCD_CMD_SWRESET [] 0, Event.vTaskDelay 120],
            sent := w.sent + 1 })) ∧
    (p.reset_gpio_num < 0 → env.tx_result w.sent ≠ ESP_OK →
      panel_nv3041_reset env p w =
        (Outcome.ret (env.tx_result w.sent), p,
          { trace := w.trace ++ [Event.tx_param LCD_CMD_SWRESET [] 0], sent := w.sent + 1 })) ∧
    (0 ≤ p.reset_gpio_num →
      panel_nv3041_reset env p w =
        (Outcome.ret ESP_OK, p,
          { trace := w.trace ++
              [Event.gpio_set_level p.reset_gpio_num p.reset_level, Event.vTaskDelay 120,
               Event.gpio_set_level p.reset_gpio_num (!p.reset_level), Event.vTaskDelay 120],
            sent := w.sent })) ∧
    (panel_nv3041_reset env p w).2.1 = p := by
  refine ⟨?_, ?_, ?_, ?_⟩
  · intro hline hr
    rw [reset_software env p w hline, hr]
    simp
  · intro hline hr
    rw [reset_software env p w hline]
    simp [hr]
  · exact reset_hardware env p w
  · by_cases hline : 0 ≤ p.reset_gpio_num
    · rw [reset_hardware env p w hline]
    · rw [reset_software env p w (by omega)]

/-- Witness of the amended C7: a software reset on a panel without reset line
over a bus that accepts the command, and a hardware reset on the same panel
given GPIO 5 as reset line. -/
theorem reset_calls_witness :
    (panel_bgr.reset_gpio_num < 0 ∧ env_ok.tx_result world0.sent = ESP_OK ∧
      panel_nv3041_reset env_ok panel_bgr world0 =
        (Outcome.ret ESP_OK, panel_bgr,
          { trace := [Event.tx_param LCD_CMD_SWRESET [] 0, Event.vTaskDelay 120],
            sent := 1 })) ∧
    (0 ≤ ({ panel_bgr with reset_gpio_num := 5 } : nv3041_panel_t).reset_gpio_num ∧
      panel_nv3041_reset env_ok { panel_bgr with reset_gpio_num := 5 } world0 =
        (Outcome.ret ESP_OK, { panel_bgr with reset_gpio_num := 5 },
          { trace := [Event.gpio_set_level 5 false, Event.vTaskDelay 120,
              Event.gpio_set_level 5 true, Event.vTaskDelay 120],
            sent := 0 })) :=
  ⟨⟨by decide, rfl, (reset_calls env_ok panel_bgr world0).1 (by decide) rfl⟩,
    ⟨by decide, (reset_calls env_ok { panel_bgr with reset_gpio_num := 5 } world0).2.2.1
      (by decide)⟩⟩

/-- C8. For every panel state, platform and draw request with
`x_start >= x_end` or `y_start >= y_end`, `panel_nv3041_draw_bitmap` ends in
the failed assertion with no platform call made and the panel unchanged; with
`x_start < x_end` and `y_start < y_end` it never ends in the failed
assertion. -/
theorem draw_bitmap_assert (env : Env) (p : nv3041_panel_t) (w : World)
    (x_start y_start x_end y_end : Int) (color_data : List Nat) :
    (x_start ≥ x_end ∨ y_start ≥ y_end →
      panel_nv3041_draw_bitmap env p w x_start y_start x_end y_end color_data =
        (Outcome.assert_fail, p, w)) ∧
    (x_start < x_end → y_start < y_end →
      (panel_nv3041_draw_bitmap env p w x_start y_start x_end y_end color_data).1 ≠
        Outcome.assert_fail) :=
  ⟨draw_bitmap_assert_fires env p w x_start y_start x_end y_end color_data,
    draw_bitmap_assert_passes env p w x_start y_start x_end y_end color_data⟩

/-- Witness of C8: an empty window (`x_start = x_end = 5`) trips the assertion
even on a failing bus, a one-pixel window does not. -/
theorem draw_bitmap_assert_witness :
    (((5 : Int) ≥ 5 ∨ (0 : Int) ≥ 1) ∧
      panel_nv3041_draw_bitmap env_fail_3 panel_bgr world0 5 0 5 1 [] =
        (Outcome.assert_fail, panel_bgr, world0)) ∧
    ((5 : Int) < 6 ∧ (0 : Int) < 1 ∧
      (panel_nv3041_draw_bitmap env_fail_3 panel_bgr world0 5 0 6 1 []).1 ≠
        Outcome.assert_fail) :=
  ⟨⟨by decide, (draw_bitmap_assert env_fail_3 panel_bgr world0 5 0 5 1 []).1 (by decide)⟩,
    ⟨by decide, by decide,
      (draw_bitmap_assert env_fail_3 panel_bgr world0 5 0 6 1 []).2 (by decide) (by decide)⟩⟩

/-- C9, as stated, fails. The table has the single entry `{0x36, {0xC0}, 1}`
and the shadow holds `0x08` on entry; the bus accepts sleep-out, MADCTL `0x08`
and COLMOD and rejects the table entry.  The last MADCTL command transmitted
successfully during the call carried `0x08`, yet `madctl_val` is `0xC0` on
return, the byte of the entry the bus rejected. -/
theorem init_failure_shadow_not_acked :
    (env_fail_3.tx_result 0 = ESP_OK ∧ env_fail_3.tx_result 1 = ESP_OK ∧
      env_fail_3.tx_result 2 = ESP_OK ∧ env_fail_3.tx_result 3 ≠ ESP_OK) ∧
    panel_nv3041_init env_fail_3 panel_bgr world0 =
      (Outcome.ret (-1), { panel_bgr with madctl_val := 0xC0 },
        { trace := [Event.tx_param LCD_CMD_SLPOUT [] 0, Event.vTaskDelay 100,
            Event.tx_param LCD_CMD_MADCTL [0x08] 1, Event.tx_param LCD_CMD_COLMOD [0x01] 1,
            Event.tx_param LCD_CMD_MADCTL [0xC0] 1],
          sent := 4 }) ∧
    last_tx_accepted env_fail_3 LCD_CMD_MADCTL world0.sent
        (calls_since world0 (panel_nv3041_init env_fail_3 panel_bgr world0).2.2) =
      some [0x08] ∧
    ¬ shadow_reflects
        (last_tx_accepted env_fail_3 LCD_CMD_MADCTL world0.sent
          (calls_since world0 (panel_nv3041_init env_fail_3 panel_bgr world0).2.2))
        panel_bgr.madctl_val
        (panel_nv3041_init env_fail_3 panel_bgr world0).2.1.madctl_val := by
  have h : panel_nv3041_init env_fail_3 panel_bgr world0 =
      (Outcome.ret (-1), { panel_bgr with madctl_val := 0xC0 },
        { trace := [Event.tx_param LCD_CMD_SLPOUT [] 0, Event.vTaskDelay 100,
            Event.tx_param LCD_CMD_MADCTL [0x08] 1, Event.tx_param LCD_CMD_COLMOD [0x01] 1,
            Event.tx_param LCD_CMD_MADCTL [0xC0] 1],
          sent := 4 }) := by decide
  have hl : last_tx_accepted env_fail_3 LCD_CMD_MADCTL world0.sent
      (calls_since world0 (panel_nv3041_init env_fail_3 panel_bgr world0).2.2) =
        some [0x08] := by
    rw [h]; decide
  refine ⟨by decide, h, hl, ?_⟩
  rw [hl, h]
  simp [shadow_reflects]

/-- C9, amended. Let `tbl` be the table in use for the panel state `p` (the
caller's table if `init_cmds` is non-null, the built-in table otherwise), its
MADCTL and COLMOD entries having a data byte to read, and let transmission
number `k` (counted from 0) be the first that the bus rejects.  Then
`panel_nv3041_init` returns the error of that transmission.  The table
entries the loop has reached by then are the first `k + 1 - 3` entries of
`tbl`: those transmitted successfully and, if `k >= 3`, the entry whose
transmission failed.  On return `madctl_val` is `data[0]` of the last MADCTL
entry among the entries reached, whether the bus accepted that entry or not
and whatever its `data_bytes`, or the value on entry if no MADCTL entry was
reached; likewise `colmod_val` for COLMOD.  No other field of the panel
changes. -/
theorem init_failure_shadow (env : Env) (p : nv3041_panel_t) (w : World)
    (tbl : List nv3041_lcd_init_cmd_t) (k : Nat)
    (hsel : table_in_use p tbl) (hok : table_ok tbl)
    (hk : k < (init_steps p tbl).length)
    (hio : ∀ i, i < k → env.tx_result (w.sent + i) = ESP_OK)
    (hfail : env.tx_result (w.sent + k) ≠ ESP_OK) :
    (panel_nv3041_init env p w).1 = Outcome.ret (env.tx_result (w.sent + k)) ∧
    (∀ l1 c l2, tbl.take (k + 1 - 3) = l1 ++ c :: l2 → c.cmd = LCD_CMD_MADCTL →
      (∀ d ∈ l2, d.cmd ≠ LCD_CMD_MADCTL) →
      c.data.head? = some (panel_nv3041_init env p w).2.1.madctl_val) ∧
    ((∀ d ∈ tbl.take (k + 1 - 3), d.cmd ≠ LCD_CMD_MADCTL) →
      (panel_nv3041_init env p w).2.1.madctl_val = p.madctl_val) ∧
    (∀ l1 c l2, tbl.take (k + 1 - 3) = l1 ++ c :: l2 → c.cmd = LCD_CMD_COLMOD →
      (∀ d ∈ l2, d.cmd ≠ LCD_CMD_COLMOD) →
      c.data.head? = some (panel_nv3041_init env p w).2.1.colmod_val) ∧
    ((∀ d ∈ tbl.take (k + 1 - 3), d.cmd ≠ LCD_CMD_COLMOD) →
      (panel_nv3041_init env p w).2.1.colmod_val = p.colmod_val) ∧
    (panel_nv3041_init env p w).2.1 =
      { p with madctl_val := (panel_nv3041_init env p w).2.1.madctl_val,
               colmod_val := (panel_nv3041_init env p w).2.1.colmod_val } := by
  have hact := table_in_use_active p tbl hsel
  have hlen : (init_steps p tbl).length = tbl.length + 3 := by
    simp [init_steps, table_steps]
  have hframe := init_frame env p w
  have key : (panel_nv3041_init env p w).1 = Outcome.ret (env.tx_result (w.sent + k)) ∧
      shadow_tracks LCD_CMD_MADCTL (tbl.take (k + 1 - 3)) p.madctl_val
        (panel_nv3041_init env p w).2.1.madctl_val ∧
      shadow_tracks LCD_CMD_COLMOD (tbl.take (k + 1 - 3)) p.colmod_val
        (panel_nv3041_init env p w).2.1.colmod_val := by
    match k, hk, hio, hfail with
    | 0, hk, hio, hfail =>
      have h0 : env.tx_result w.sent ≠ ESP_OK := by simpa using hfail
      rw [init_fail_0 env p w h0]
      exact ⟨rfl, shadow_tracks_nil _ _, shadow_tracks_nil _ _⟩
    | 1, hk, hio, hfail =>
      have h0 : env.tx_result w.sent = ESP_OK := by simpa using hio 0 (by omega)
      rw [init_fail_1 env p w h0 hfail]
      exact ⟨rfl, shadow_tracks_nil _ _, shadow_tracks_nil _ _⟩
    | 2, hk, hio, hfail =>
      have h0 : env.tx_result w.sent = ESP_OK := by simpa using hio 0 (by omega)
      have h1 := hio 1 (by omega)
      rw [init_fail_2 env p w h0 h1 hfail]
      exact ⟨rfl, shadow_tracks_nil _ _, shadow_tracks_nil _ _⟩
    | k + 3, hk, hio, hfail =>
      have h0 : env.tx_result w.sent = ESP_OK := by simpa using hio 0 (by omega)
      have h1 := hio 1 (by omega)
      have h2 := hio 2 (by omega)
      rw [init_eq_loop env p w h0 h1 h2, hact]
      have hk' : k < tbl.length := by omega
      have h := loop_first_failure env tbl p
        { trace := w.trace ++ [Event.tx_param LCD_CMD_SLPOUT [] 0, Event.vTaskDelay 100,
            Event.tx_param LCD_CMD_MADCTL [p.madctl_val] 1,
            Event.tx_param LCD_CMD_COLMOD [p.colmod_val] 1],
          sent := w.sent + 3 } k hk' hok (by
          intro i hi
          have := hio (i + 3) (by omega)
          simpa [Nat.add_assoc, Nat.add_comm 3 i] using this) (by
          simpa [Nat.add_assoc, Nat.add_comm 3 k] using hfail)
      have e : w.sent + 3 + k = w.sent + (k + 3) := by omega
      simp only [e] at h
      refine ⟨h.1, ?_⟩
      have hsent := congrArg World.sent h.2
      simp only at hsent
      have hs := loop_shadow env tbl p
        { trace := w.trace ++ [Event.tx_param LCD_CMD_SLPOUT [] 0, Event.vTaskDelay 100,
            Event.tx_param LCD_CMD_MADCTL [p.madctl_val] 1,
            Event.tx_param LCD_CMD_COLMOD [p.colmod_val] 1],
          sent := w.sent + 3 } (k + 1) (by rw [hsent]; simp only; omega)
      have e2 : k + 3 + 1 - 3 = k + 1 := by omega
      rw [e2]
      exact hs
  obtain ⟨hret, hm, hc⟩ := key
  refine ⟨hret, ?_, ?_, ?_, ?_, hframe⟩
  · intro l1 c l2 hsplit hcmd hl2
    rw [hsplit] at hm
    exact shadow_tracks_last _ l1 l2 c _ _ hcmd hl2 hm
  · intro hn
    exact shadow_tracks_none _ _ _ _ hn hm
  · intro l1 c l2 hsplit hcmd hl2
    rw [hsplit] at hc
    exact shadow_tracks_last _ l1 l2 c _ _ hcmd hl2 hc
  · intro hn
    exact shadow_tracks_none _ _ _ _ hn hc

/-- Witness of the amended C9: the bus rejects transmission 3, the caller's
MADCTL entry `{0x36, {0xC0}, 1}`.  The call returns that error, `madctl_val`
holds the byte `0xC0` of the rejected entry, and `colmod_val`, for which no
entry was reached, keeps its value `0x01`. -/
theorem init_failure_shadow_witness :
    table_in_use panel_bgr table_madctl ∧ table_ok table_madctl ∧
    3 < (init_steps panel_bgr table_madctl).length ∧
    (∀ i, i < 3 → env_fail_3.tx_result (world0.sent + i) = ESP_OK) ∧
    env_fail_3.tx_result (world0.sent + 3) ≠ ESP_OK ∧
    (panel_nv3041_init env_fail_3 panel_bgr world0).1 = Outcome.ret (-1) ∧
    (panel_nv3041_init env_fail_3 panel_bgr world0).2.1.madctl_val = 0xC0 ∧
    (panel_nv3041_init env_fail_3 panel_bgr world0).2.1.colmod_val = 0x01 := by
  have hsel : table_in_use panel_bgr table_madctl := Or.inl rfl
  have hok : table_ok table_madctl := by unfold table_ok; decide
  have h2 : ∀ i, i < 3 → env_fail_3.tx_result (world0.sent + i) = ESP_OK := by decide
  have h3 : env_fail_3.tx_result (world0.sent + 3) ≠ ESP_OK := by decide
  have h := init_failure_shadow env_fail_3 panel_bgr world0 table_madctl 3 hsel hok
    (by decide) h2 h3
  refine ⟨hsel, hok, by decide, h2, h3, h.1.trans (by decide), ?_, ?_⟩
  · exact (Option.some.inj (h.2.1 [] ⟨0x36, [0xC0], 1, 0⟩ [] rfl rfl
      (fun _ hd => absurd hd (List.not_mem_nil _)))).symm
  · exact h.2.2.2.2.1 (by decide)

/-- C10, as stated, fails in its last clause. The panel is constructed for
BGR order and 18 bits per pixel without vendor table and initialised on a
platform where every call succeeds; `fb_bits_per_pixel` is still 24, 3 bytes
per pixel.  A draw request for the window 0..30000 x 0..30000 is then given
the length 15645440, not `30000 * 30000 * 3 = 2700000000`: the `int` product
`30000 * 30000 * 24` does not fit in 32 bits. -/
theorem init_default_draw_length_wraps :
    esp_lcd_new_panel_nv3041 env_ok world0 true (some config_bgr18) true =
      (ESP_OK, some (new_panel_result config_bgr18),
        { trace := [Event.gpio_config 32], sent := 0 }) ∧
    config_bgr18.vendor_config = none ∧ config_bgr18.bits_per_pixel = 18 ∧
    (panel_nv3041_init env_ok (new_panel_result config_bgr18) world0).1 =
      Outcome.ret ESP_OK ∧
    (panel_nv3041_init env_ok (new_panel_result config_bgr18) world0).2.1.fb_bits_per_pixel =
      24 ∧
    panel_nv3041_draw_bitmap env_ok
        (panel_nv3041_init env_ok (new_panel_result config_bgr18) world0).2.1 world0
        0 0 30000 30000 [] =
      (Outcome.ret ESP_OK,
        (panel_nv3041_init env_ok (new_panel_result config_bgr18) world0).2.1,
        { trace := [Event.tx_param LCD_CMD_CASET [0, 0, 117, 47] 4,
            Event.tx_param LCD_CMD_RASET [0, 0, 117, 47] 4,
            Event.tx_color LCD_CMD_RAMWR [] 15645440],
          sent := 3 }) ∧
    (15645440 : Nat) ≠ (((30000 : Int) - 0) * (30000 - 0) * 3).toNat := by
  have hnew : esp_lcd_new_panel_nv3041 env_ok world0 true (some config_bgr18) true =
      (ESP_OK, some (new_panel_result config_bgr18),
        { trace := [Event.gpio_config 32], sent := 0 }) := by decide
  have hret := (init_default_returns env_ok (new_panel_result config_bgr18) world0 rfl
    (fun _ _ => rfl)).1
  have hst := init_default_state env_ok (new_panel_result config_bgr18) world0 rfl hret
  refine ⟨hnew, rfl, rfl, hret, by rw [hst]; rfl, ?_, by decide⟩
  rw [draw_bitmap_trace env_ok _ world0 0 0 30000 30000 [] (by decide) (by decide)
    (fun _ _ => rfl), hst]
  simp [hi, lo, int_land_255, Int.shiftRight_eq_div_pow, new_panel_result, config_bgr18, world0,
    wrap_int, to_size_t]
  decide

/-- C10, amended. Let `p` be a panel handed out by `esp_lcd_new_panel_nv3041`
for a configuration without vendor init table (any accepted colour order and
pixel width).  Then `panel_nv3041_init` walks the built-in table, which
contains the entries `{0x36, 0xC0}` and `{0x3A, 0x01}`: when its 59
transmissions succeed it returns `ESP_OK` and its platform calls are the
three fixed steps followed by the entries of the built-in table; and whenever
it returns `ESP_OK` the shadow `madctl_val` is `0xC0` and `colmod_val` is
`0x01` while every other field, `fb_bits_per_pixel` included, keeps the
constructor's value.  So the BGR bit (bit 3), set by the constructor for BGR
order, is clear after init, and a panel constructed for 18 bits per pixel
still draws 3 bytes per pixel, although its colour-mode byte is then `0x01`,
for every window whose number of bits
`(x_end - x_start) * (y_end - y_start) * 24` does not exceed the largest
`int`, 2147483647. -/
theorem init_default_table (env0 env : Env) (w0 w1 w : World)
    (cfg : esp_lcd_panel_dev_config_t) (p : nv3041_panel_t)
    (hnew : esp_lcd_new_panel_nv3041 env0 w0 true (some cfg) true = (ESP_OK, some p, w1))
    (hvendor : ∀ vendor_config, cfg.vendor_config = some vendor_config →
      vendor_config.init_cmds = none) :
    active_init_cmds p = vendor_specific_init_default ∧
    (⟨0x36, [0xC0], 1, 0⟩ ∈ vendor_specific_init_default ∧
      ⟨0x3A, [0x01], 1, 0⟩ ∈ vendor_specific_init_default) ∧
    ((∀ i, i < 59 → env.tx_result (w.sent + i) = ESP_OK) →
      (panel_nv3041_init env p w).1 = Outcome.ret ESP_OK ∧
      (panel_nv3041_init env p w).2.2 =
        { trace := w.trace ++ steps_events (init_steps p vendor_specific_init_default),
          sent := w.sent + 59 }) ∧
    ((panel_nv3041_init env p w).1 = Outcome.ret ESP_OK →
      (panel_nv3041_init env p w).2.1 = { p with madctl_val := 0xC0, colmod_val := 0x01 } ∧
      (panel_nv3041_init env p w).2.1.fb_bits_per_pixel =
        (if cfg.bits_per_pixel = 18 then 24 else 16) ∧
      (cfg.rgb_ele_order = lcd_rgb_element_order_t.BGR → p.madctl_val.testBit 3 = true) ∧
      (panel_nv3041_init env p w).2.1.madctl_val.testBit 3 = false ∧
      (cfg.bits_per_pixel = 18 →
        ∀ (env2 : Env) (w2 : World) (x_start y_start x_end y_end : Int) (color_data : List Nat),
          x_start < x_end → y_start < y_end →
          (x_end - x_start) * (y_end - y_start) * 24 ≤ 2147483647 →
          (∀ n, n < 3 → env2.tx_result (w2.sent + n) = ESP_OK) →
          ∃ caset raset,
            (panel_nv3041_draw_bitmap env2 (panel_nv3041_init env p w).2.1 w2
                x_start y_start x_end y_end color_data).2.2.trace =
              w2.trace ++ [caset, raset,
                Event.tx_color LCD_CMD_RAMWR color_data
                  ((x_end - x_start) * (y_end - y_start) * 3).toNat])) := by
  obtain ⟨hp, _, _⟩ := new_panel_ok_inv env0 w0 w1 cfg p hnew
  have hnone : p.init_cmds = none := by
    rw [hp]
    cases hv : cfg.vendor_config with
    | none => simp [new_panel_result, hv]
    | some vc => simp [new_panel_result, hv, hvendor vc hv]
  refine ⟨by simp [active_init_cmds, hnone], ⟨by decide, by decide⟩, ?_, ?_⟩
  · intro hio
    exact init_default_returns env p w hnone hio
  · intro hret
    have hst := init_default_state env p w hnone hret
    refine ⟨hst, ?_, ?_, ?_, ?_⟩
    · rw [hst, hp]; rfl
    · intro hbgr
      rw [hp]
      simp [new_panel_result, hbgr, LCD_CMD_BGR_BIT]
      decide
    · rw [hst]
      show Nat.testBit 0xC0 3 = false
      decide
    · intro h18 env2 w2 x_start y_start x_end y_end color_data hx hy hrange hio
      have hfb : (panel_nv3041_init env p w).2.1.fb_bits_per_pixel = 24 := by
        rw [hst, hp]; simp [new_panel_result, h18]
      rw [draw_bitmap_ok env2 _ w2 x_start y_start x_end y_end color_data hx hy
        (Or.inr hfb) (by rw [hfb]; exact hrange) hio, hfb]
      exact ⟨_, _, rfl⟩

/-- Witness of the amended C10: the panel constructed for BGR order and 18
bits per pixel, initialised on a platform where every call succeeds, holds
`0xC0` and `0x01` in its shadows and is given 391680 bytes, 3 per pixel, for
the window 0..480 x 0..272. -/
theorem init_default_table_witness :
    esp_lcd_new_panel_nv3041 env_ok world0 true (some config_bgr18) true =
      (ESP_OK, some (new_panel_result config_bgr18),
        { trace := [Event.gpio_config 32], sent := 0 }) ∧
    (∀ vendor_config, config_bgr18.vendor_config = some vendor_config →
      vendor_config.init_cmds = none) ∧
    (panel_nv3041_init env_ok (new_panel_result config_bgr18) world0).1 =
      Outcome.ret ESP_OK ∧
    (panel_nv3041_init env_ok (new_panel_result config_bgr18) world0).2.1 =
      { new_panel_result config_bgr18 with madctl_val := 0xC0, colmod_val := 0x01 } ∧
    (((480 : Int) - 0) * (272 - 0) * 24 ≤ 2147483647 ∧
      ∃ caset raset,
        (panel_nv3041_draw_bitmap env_ok
            (panel_nv3041_init env_ok (new_panel_result config_bgr18) world0).2.1 world0
            0 0 480 272 []).2.2.trace =
          world0.trace ++ [caset, raset,
            Event.tx_color LCD_CMD_RAMWR [] (((480 : Int) - 0) * (272 - 0) * 3).toNat]) := by
  have hnew : esp_lcd_new_panel_nv3041 env_ok world0 true (some config_bgr18) true =
      (ESP_OK, some (new_panel_result config_bgr18),
        { trace := [Event.gpio_config 32], sent := 0 }) := by decide
  have hv : ∀ vendor_config, config_bgr18.vendor_config = some vendor_config →
      vendor_config.init_cmds = none := by
    intro vc h
    simp [config_bgr18] at h
  have h := init_default_table env_ok env_ok world0 _ world0 config_bgr18 _ hnew hv
  have hret := (h.2.2.1 (fun _ _ => rfl)).1
  exact ⟨hnew, hv, hret, (h.2.2.2 hret).1, by decide,
    (h.2.2.2 hret).2.2.2.2 rfl env_ok world0 0 0 480 272 [] (by decide) (by decide)
      (by decide) (fun _ _ => rfl)⟩

end NV3041
